import Mathlib

/-!
# Chat client front end: streaming transcript, renderer hooks, polling panels

A shallow embedding of `src/frontend/app.js` and of the components
`ArtifactsPanel.js`, `TaskProgress.js` and `TerminalDashboard.js`.

The page is single threaded: every handler runs to completion, so each handler
is a function from the page state to the page state.  Libraries the page calls
but does not define (`marked.parse`, `Prism.highlightAll`, `mermaid.run`, the
DOM string conversions) are parameters of the model; every theorem holds for
all of them.  Scroll position and keyboard focus are not part of the state.
-/

/-! ## JavaScript values and strings -/

/-- A JavaScript value as produced by `JSON.parse` and by property access. -/
inductive JsVal where
  | undefined : JsVal
  | null : JsVal
  | bool (b : Bool) : JsVal
  | num (q : ℚ) : JsVal
  | str (s : String) : JsVal
  | arr (items : List JsVal) : JsVal
  | obj (fields : List (String × JsVal)) : JsVal

namespace JsVal

/-- JavaScript truthiness (`if (v)`, `v || d`, `v && w`). -/
def truthy : JsVal → Bool
  | undefined => false
  | null => false
  | bool b => b
  | num q => decide (q ≠ 0)
  | str s => decide (s ≠ "")
  | arr _ => true
  | obj _ => true

/-- Property read `v.k` for a data property `k`.  `none` stands for the
`TypeError` thrown on `null` and `undefined`; a property that is absent reads
as `undefined`. -/
def getProp (v : JsVal) (k : String) : Option JsVal :=
  match v with
  | undefined => none
  | null => none
  | obj fields =>
    match fields.find? (fun kv => kv.1 == k) with
    | some kv => some kv.2
    | none => some undefined
  | arr items => if k == "length" then some (num items.length) else some undefined
  | str s => if k == "length" then some (num s.length) else some undefined
  | _ => some undefined

/-- Test `v === 0`. -/
def isZero : JsVal → Bool
  | num q => decide (q = 0)
  | _ => false

/-- Value of `Object.keys(v).length` for a value that is not nullish. -/
def ownKeyCount : JsVal → Nat
  | obj fields => fields.length
  | arr items => items.length
  | str s => s.length
  | _ => 0

end JsVal

/-- Code points removed by `String.prototype.trim` (WhiteSpace and
LineTerminator of the language standard). -/
def isJsWhitespace (c : Char) : Bool :=
  let n := c.toNat
  n == 9 || n == 10 || n == 11 || n == 12 || n == 13 || n == 32 || n == 160 ||
  n == 5760 || (8192 ≤ n && n ≤ 8202) || n == 8232 || n == 8233 || n == 8239 ||
  n == 8287 || n == 12288 || n == 65279

/-- The method `String.prototype.trim`. -/
def jsTrim (s : String) : String :=
  String.mk ((s.data.dropWhile isJsWhitespace).reverse.dropWhile isJsWhitespace).reverse

/-- ASCII whitespace separating the tokens of a `class` attribute. -/
def isAsciiWhitespace (c : Char) : Bool :=
  let n := c.toNat
  n == 9 || n == 10 || n == 12 || n == 13 || n == 32

/-- Tokens of a `class` attribute value; `cur` is the token being read, reversed. -/
def classTokensAux : List Char → List Char → List String
  | [], cur => if cur.isEmpty then [] else [String.mk cur.reverse]
  | c :: cs, cur =>
    if isAsciiWhitespace c then
      (if cur.isEmpty then classTokensAux cs [] else String.mk cur.reverse :: classTokensAux cs [])
    else classTokensAux cs (c :: cur)

/-- The call `element.classList.contains(token)` on an element of class `className`. -/
def classListContains (className token : String) : Bool :=
  (classTokensAux className.data []).contains token

/-! ## External libraries -/

/-- Third-party functions the page calls. -/
structure Libs where
  /-- Result of `marked.parse` under the renderer installed by `setupMarked`. -/
  parse : String → String
  /-- Effect of `Prism.highlightAll()` on the markup of one rendered message. -/
  prism : String → String
  /-- Effect of `mermaid.run` over the `.mermaid` nodes of one rendered message. -/
  mermaid : String → String
  /-- String conversion of a value in a template literal or a DOM setter. -/
  toStr : JsVal → String
  /-- Result of `JSON.stringify`. -/
  stringify : JsVal → String
  /-- Result of `escapeHtml`: the `innerHTML` of a `div` whose `textContent` was set to the value. -/
  escapeHtml : JsVal → String
  /-- Result of `new Date(v).toLocaleString('pt-BR')`. -/
  formatDate : JsVal → String
  /-- Result of `String.prototype.toUpperCase`. -/
  toUpperCase : String → String
  /-- Text of the member that a plain object inherits under a key, if there is one
  (`constructor`, `toString`, ...). -/
  inherited : String → Option String

/-! ## Page state of `app.js` -/

/-- A child of `#messages`, as built by `createMessageElement`. -/
structure MessageElement where
  /-- Attribute `class` of the outer `div`. -/
  className : String
  /-- Text of the `.avatar` child. -/
  avatar : String
  /-- Attribute `data-raw-text` of the `.message-content` child, when set. -/
  dataRawText : Option String
  /-- Markup inside the `.message-content` child. -/
  innerHTML : String
deriving DecidableEq, Repr

namespace MessageElement

/-- Raw text as `appendToLastMessage` reads it: `getAttribute('data-raw-text') || ''`. -/
def rawText (m : MessageElement) : String :=
  match m.dataRawText with
  | some t => if t = "" then "" else t
  | none => ""

/-- Test `classList.contains('assistant-message')`. -/
def isAssistant (m : MessageElement) : Bool :=
  classListContains m.className "assistant-message"

end MessageElement

/-- Field `readyState` of a `WebSocket`. -/
inductive ReadyState where
  | connecting | open | closing | closed
deriving DecidableEq, Repr

/-- Argument of `ws.send`, before `JSON.stringify`. -/
structure Outgoing where
  message : String
  conversation_id : Option String
deriving DecidableEq, Repr

/-- Functions handed to `setTimeout`. -/
inductive TimerCallback where
  | connectWebSocket
deriving DecidableEq, Repr

/-- A pending `setTimeout` registration. -/
structure Timer where
  callback : TimerCallback
  delayMs : Nat
deriving DecidableEq, Repr

/-- A line appended to `#terminal-content`. -/
structure TerminalLine where
  className : String
  textContent : String
deriving DecidableEq, Repr

/-- The object `window.terminalDashboard`. -/
structure TerminalDashboard where
  /-- Children of `#terminal-content`, or `none` if the element is missing. -/
  container : Option (List TerminalLine)
  /-- Whether `#terminal-dashboard` has class `visible`; `none` if the element is missing. -/
  dashboard : Option Bool
  isVisible : Bool
deriving DecidableEq, Repr

/-- Globals of `app.js` and the parts of the document it reads and writes,
once `DOMContentLoaded` has run `connectWebSocket`. -/
structure State where
  currentConversationId : Option String
  isStreaming : Bool
  /-- Children of `#messages`, first to last. -/
  messages : List MessageElement
  /-- Property `value` of `#user-input`. -/
  inputValue : String
  /-- Text of `#chat-title`. -/
  chatTitle : String
  /-- Text of `#status-text`. -/
  statusText : String
  /-- Colour of `#status-indicator`. -/
  statusColor : String
  /-- Field `readyState` of the socket in `ws`. -/
  readyState : ReadyState
  /-- Every call of `ws.send`, oldest first, with the ready state at the call. -/
  wsSendLog : List (ReadyState × Outgoing)
  /-- Timers registered and not yet fired, oldest first. -/
  timers : List Timer
  terminalDashboard : Option TerminalDashboard
  /-- Value last assigned to `#provider-select`. -/
  providerValue : String
  /-- Value last assigned to `#temperature`. -/
  temperatureValue : String
  /-- Text of `#temp-value`. -/
  tempValueText : String
  /-- Conversation ids of the calls of `loadConversation` whose request has not
  settled yet, oldest first. -/
  pendingLoads : List String
deriving DecidableEq, Repr

/-- Frames handed to the network: `send` transmits on an open socket, throws
`InvalidStateError` while connecting and discards the data once closing or closed. -/
def State.transmitted (s : State) : List Outgoing :=
  (s.wsSendLog.filter (fun e => e.1 = ReadyState.open)).map (fun e => e.2)

/-- A frame from the server after `JSON.parse`; a field the frame lacks is left at its default. -/
structure ServerMessage where
  type : String
  content : String := ""
  tool : String := ""
  args : JsVal := JsVal.undefined
  result : String := ""

/-- Outcome of `fetch(url)` followed by `response.json()`: the request promise
rejects, or a response arrives with a status and a body; `body = none` is a body
that is not valid JSON, for which `response.json()` rejects. -/
inductive FetchResult where
  | rejected : FetchResult
  | response (status : Nat) (body : Option JsVal) : FetchResult

/-- Value bound by `await response.json()`, or `none` when either `await`
throws.  The status of the response is not read. -/
def FetchResult.json : FetchResult → Option JsVal
  | rejected => none
  | response _ body => body

/-- String conversion in template literals and DOM setters: a string is itself,
any other value is converted by the host. -/
def jsToString (L : Libs) : JsVal → String
  | JsVal.str s => s
  | v => L.toStr v

/-! ## `TerminalDashboard.js` -/

namespace TerminalDashboard

/-- Method `show()`; `none` is the `TypeError` of `this.dashboard.classList`
when `#terminal-dashboard` is missing. -/
def show_ (t : TerminalDashboard) : Option TerminalDashboard :=
  match t.dashboard with
  | none => none
  | some _ => some { t with dashboard := some true, isVisible := true }

/-- Method `appendLine(text, type)`; `none` when `show` throws, which happens
before anything is written. -/
def appendLine (t : TerminalDashboard) (text type : String) : Option TerminalDashboard :=
  match t.container with
  | none => some t
  | some lines =>
    match (if !t.isVisible then show_ t else some t) with
    | none => none
    | some t1 =>
      let line : TerminalLine :=
        { className := "terminal-line terminal-" ++ type, textContent := text }
      some { t1 with container := some (lines ++ [line]) }

/-- Method `logToolCall(name, args)`.  The result pairs the dashboard as the call
leaves it with `true` when the call threw. -/
def logToolCall (L : Libs) (t : TerminalDashboard) (name : String) (args : JsVal) :
    TerminalDashboard × Bool :=
  match appendLine t ("\n> EXECUTANDO: " ++ name) "command" with
  | none => (t, true)
  | some t1 =>
    if args.truthy && decide (0 < args.ownKeyCount) then
      match appendLine t1 ("  Args: " ++ L.stringify args) "system" with
      | none => (t1, true)
      | some t2 => (t2, false)
    else (t1, false)

/-- Method `logToolResult(name, result)`, with the same result convention. -/
def logToolResult (t : TerminalDashboard) (name result : String) : TerminalDashboard × Bool :=
  match appendLine t ("> RESULTADO [" ++ name ++ "]:") "system" with
  | none => (t, true)
  | some t1 =>
    match appendLine t1 result "stdout" with
    | none => (t1, true)
    | some t2 => (t2, false)

end TerminalDashboard

/-! ## `app.js` -/

namespace App

/-- Function `updateStatus(text, connected)`. -/
def updateStatus (s : State) (text : String) (connected : Bool) : State :=
  { s with statusText := text, statusColor := if connected then "#10b981" else "#ef4444" }

/-- Effect of `Prism.highlightAll()` on the transcript: every message in the
document is passed through the highlighter. -/
def highlightAll (L : Libs) (s : State) : State :=
  { s with messages := s.messages.map (fun m => { m with innerHTML := L.prism m.innerHTML }) }

/-- Function `createMessageElement(role, content)`.  The element is returned
detached, so the `Prism.highlightAll()` it runs for a non-empty content reaches
only the messages already in the document.  `none` is the exception
`marked.parse` raises for a content that is truthy and not a string. -/
def createMessageElement (L : Libs) (s : State) (role content : JsVal) :
    Option (State × MessageElement) :=
  let className := "message " ++ jsToString L role ++ "-message"
  let avatar := match role with
    | JsVal.str "user" => "👤"
    | _ => "🤖"
  if content.truthy then
    match content with
    | JsVal.str text =>
      some (highlightAll L s,
        { className := className, avatar := avatar, dataRawText := none,
          innerHTML := L.parse text })
    | _ => none
  else
    some (s, { className := className, avatar := avatar, dataRawText := none, innerHTML := "" })

/-- Function `addMessage(role, content)`; `none` when `createMessageElement` throws. -/
def addMessage (L : Libs) (s : State) (role content : JsVal) : Option State :=
  match createMessageElement L s role content with
  | none => none
  | some (s1, el) => some { s1 with messages := s1.messages ++ [el] }

/-- Function `sendMessage()`.  An exception of `ws.send` (socket still
connecting) is raised by the last statement, after every assignment. -/
def sendMessage (L : Libs) (s : State) : State :=
  let message := jsTrim s.inputValue
  if message = "" ∨ s.isStreaming = true then s
  else
    let s1 := { s with inputValue := "" }
    match addMessage L s1 (JsVal.str "user") (JsVal.str message) with
    | none => s1
    | some s2 =>
      match createMessageElement L s2 (JsVal.str "assistant") (JsVal.str "") with
      | none => s2
      | some (s3, el) =>
        { s3 with
          messages := s3.messages ++ [el]
          isStreaming := true
          wsSendLog := s3.wsSendLog ++
            [(s3.readyState, { message := message, conversation_id := s3.currentConversationId })] }

/-- Function `appendToLastMessage(chunk)`. -/
def appendToLastMessage (L : Libs) (s : State) (chunk : String) : State :=
  match s.messages.getLast? with
  | none => s
  | some lastMessage =>
    if lastMessage.isAssistant then
      let newText := lastMessage.rawText ++ chunk
      { s with messages := s.messages.dropLast ++
          [{ lastMessage with dataRawText := some newText, innerHTML := L.parse newText }] }
    else s

/-- Finalising pass of the `done` branch: `Prism.highlightAll()` and then
`mermaid.run` over the `.mermaid` nodes. -/
def finalizePass (L : Libs) (s : State) : State :=
  let s1 := highlightAll L s
  { s1 with messages := s1.messages.map (fun m => { m with innerHTML := L.mermaid m.innerHTML }) }

/-- Handler `ws.onmessage`, applied to the parsed frame. -/
def onmessage (L : Libs) (s : State) (data : ServerMessage) : State :=
  if data.type = "chunk" then appendToLastMessage L s data.content
  else if data.type = "tool_call" then
    match s.terminalDashboard with
    | some t => { s with terminalDashboard := some (t.logToolCall L data.tool data.args).1 }
    | none => s
  else if data.type = "tool_result" then
    match s.terminalDashboard with
    | some t => { s with terminalDashboard := some (t.logToolResult data.tool data.result).1 }
    | none => s
  else if data.type = "done" then finalizePass L { s with isStreaming := false }
  else s

/-- Handler `ws.onopen`. -/
def onopen (s : State) : State :=
  updateStatus s "Conectado" true

/-- Handler `ws.onclose`. -/
def onclose (s : State) : State :=
  let s1 := updateStatus s "Desconectado" false
  { s1 with timers := s1.timers ++ [{ callback := TimerCallback.connectWebSocket, delayMs := 3000 }] }

/-- Function `connectWebSocket()`: `ws` becomes a new socket, which starts connecting. -/
def connectWebSocket (s : State) : State :=
  { s with readyState := ReadyState.connecting }

/-- Function `newChat()`. -/
def newChat (s : State) : State :=
  { s with currentConversationId := none, messages := [], chatTitle := "Nova Conversa" }

/-- Loop `data.messages.forEach(msg => addMessage(msg.role, msg.content))`; it
stops at the first exception, keeping the messages added before it. -/
def addLoadedMessages (L : Libs) : State → List JsVal → State
  | s, [] => s
  | s, msg :: rest =>
    match msg.getProp "role", msg.getProp "content" with
    | some role, some content =>
      match addMessage L s role content with
      | some s1 => addLoadedMessages L s1 rest
      | none => s
    | _, _ => s

/-- Function `loadConversation(id)` from the point where its request settles
with the outcome `r`: `await response.json()` returns, or one of the two
`await`s throws.  Before that point the function writes nothing, and `s` is the
page as it is when the request settles, not as it was at the call. -/
def loadConversation (L : Libs) (s : State) (id : String) (r : FetchResult) : State :=
  match r.json with
  | none => s
  | some data =>
    let s1 := { s with currentConversationId := some id, messages := [] }
    match data.getProp "messages" with
    | some (JsVal.arr msgs) => addLoadedMessages L s1 msgs
    | _ => s1

/-- Function `loadConfig()` with the outcome of its request.  The three
assignments run once `config.llm.provider` has been read, which throws when
`config` or `config.llm` is `null` or `undefined`. -/
def loadConfig (L : Libs) (s : State) (r : FetchResult) : State :=
  match r.json with
  | none => s
  | some config =>
    match config.getProp "llm" with
    | none => s
    | some llm =>
      match llm.getProp "provider", llm.getProp "temperature" with
      | some provider, some temperature =>
        { s with
          providerValue := jsToString L provider
          temperatureValue := jsToString L temperature
          tempValueText := jsToString L temperature }
      | _, _ => s

/-! ### Renderer hooks installed by `setupMarked` -/

/-- Test `haystack.includes(needle)` on code points. -/
def includesChars (needle : List Char) : List Char → Bool
  | [] => needle.isEmpty
  | c :: cs => needle.isPrefixOf (c :: cs) || includesChars needle cs

/-- Method `String.prototype.includes`. -/
def jsIncludes (s needle : String) : Bool :=
  includesChars needle.data s.data

/-- Replacement of the first occurrence of `needle`, on code points. -/
def replaceFirstChars (needle replacement : List Char) : List Char → List Char
  | [] => if needle.isEmpty then replacement else []
  | c :: cs =>
    if needle.isPrefixOf (c :: cs) then replacement ++ (c :: cs).drop needle.length
    else c :: replaceFirstChars needle replacement cs

/-- Method `String.prototype.replace` for a string pattern and a replacement
without `$`: only the first occurrence is replaced. -/
def jsReplace (s needle replacement : String) : String :=
  String.mk (replaceFirstChars needle.data replacement.data s.data)

/-- Method `toUpperCase` on a string of ASCII letters. -/
def asciiUpperCase (s : String) : String :=
  String.mk (s.data.map Char.toUpper)

/-- Hook `renderer.code(code, language)`. -/
def rendererCode (L : Libs) (code : String) (language : JsVal) : String :=
  match language with
  | JsVal.str "mermaid" => "<div class=\"mermaid\">" ++ code ++ "</div>"
  | _ => "<pre><code class=\"language-" ++ jsToString L language ++ "\">" ++ code ++ "</code></pre>"

/-- Variable `type` of `renderer.blockquote`: the first kind, in the order of
the source, whose marker occurs in the quote, or the empty string. -/
def alertType (quote : String) : String :=
  if jsIncludes quote "[!NOTE]" then "note"
  else if jsIncludes quote "[!TIP]" then "tip"
  else if jsIncludes quote "[!IMPORTANT]" then "important"
  else if jsIncludes quote "[!WARNING]" then "warning"
  else if jsIncludes quote "[!CAUTION]" then "caution"
  else ""

/-- Hook `renderer.blockquote(quote)`. -/
def rendererBlockquote (quote : String) : String :=
  let type := alertType quote
  if type ≠ "" then
    let cleanQuote := jsReplace quote ("[!" ++ asciiUpperCase type ++ "]") ""
    "<blockquote class=\"alert alert-" ++ type ++ "\">" ++ cleanQuote ++ "</blockquote>"
  else "<blockquote>" ++ quote ++ "</blockquote>"

/-! ### The page as a transition system -/

/-- What can happen to the page: user actions, socket events, timers, and
requests that settle.  A call of `loadConversation` and the settling of its
request are two events, with any other events in between. -/
inductive Event where
  | typeInput (text : String) : Event
  | sendMessage : Event
  | wsOpen : Event
  | wsMessage (data : ServerMessage) : Event
  | wsClose : Event
  | timerFires : Event
  | newChat : Event
  | loadConversation (id : String) : Event
  | loadConversationSettles (id : String) (r : FetchResult) : Event

/-- One event.  The browser sets `readyState` before it calls `onopen` and
`onclose`; an open event reaches a socket that is connecting, a message an open
socket, a close event a socket that is not closed yet.  A call of
`loadConversation` only starts its request; the rest of the function runs when
a request in flight settles. -/
def step (L : Libs) (s : State) : Event → State
  | Event.typeInput text => { s with inputValue := text }
  | Event.sendMessage => sendMessage L s
  | Event.wsOpen =>
    if s.readyState = ReadyState.connecting then onopen { s with readyState := ReadyState.open }
    else s
  | Event.wsMessage data =>
    if s.readyState = ReadyState.open then onmessage L s data else s
  | Event.wsClose =>
    if s.readyState = ReadyState.closed then s
    else onclose { s with readyState := ReadyState.closed }
  | Event.timerFires =>
    match s.timers with
    | [] => s
    | timer :: rest =>
      match timer.callback with
      | TimerCallback.connectWebSocket => connectWebSocket { s with timers := rest }
  | Event.newChat => newChat s
  | Event.loadConversation id => { s with pendingLoads := s.pendingLoads ++ [id] }
  | Event.loadConversationSettles id r =>
    if id ∈ s.pendingLoads then
      loadConversation L { s with pendingLoads := s.pendingLoads.erase id } id r
    else s

/-- A run of events, first to last. -/
def run (L : Libs) (s : State) (events : List Event) : State :=
  events.foldl (step L) s

/-- The page when `DOMContentLoaded` has finished: no conversation, nothing
streaming, no messages, the socket connecting.  Texts set by the HTML file are
left empty. -/
def initial : State :=
  { currentConversationId := none, isStreaming := false, messages := [], inputValue := "",
    chatTitle := "", statusText := "", statusColor := "", readyState := ReadyState.connecting,
    wsSendLog := [], timers := [], terminalDashboard := none,
    providerValue := "", temperatureValue := "", tempValueText := "", pendingLoads := [] }

end App

/-! ## `ArtifactsPanel.js` -/

/-- Fields of the `ArtifactsPanel` instance and the element it renders into. -/
structure ArtifactsPanel where
  artifacts : JsVal
  conversationId : String
  isVisible : Bool
  /-- Markup inside `#artifacts-list`, or `none` if the element is missing. -/
  listHTML : Option String

namespace ArtifactsPanel

/-- Method `getIconForType(type)`: `icons[type] || '📄'`. -/
def getIconForType (L : Libs) (type : JsVal) : String :=
  let key := jsToString L type
  if key = "task" then "📋"
  else if key = "implementation_plan" then "📝"
  else if key = "walkthrough" then "📚"
  else if key = "other" then "📄"
  else match L.inherited key with
    | some text => text
    | none => "📄"

/-- Method `renderArtifact(artifact)`; `none` is the `TypeError` of reading a
property of `null` or `undefined`. -/
def renderArtifact (L : Libs) (artifact : JsVal) : Option String :=
  match artifact.getProp "type", artifact.getProp "updated_at", artifact.getProp "name",
      artifact.getProp "summary" with
  | some type, some updatedAt, some name, some summary =>
    let icon := getIconForType L type
    let date := if updatedAt.truthy then L.formatDate updatedAt else ""
    some ("\n            <div class=\"artifact-item\" onclick=\"artifactsPanel.viewArtifact('" ++
      jsToString L name ++ "')\">\n                <div class=\"artifact-icon\">" ++ icon ++
      "</div>\n                <div class=\"artifact-info\">\n                    <h4>" ++
      L.escapeHtml name ++ "</h4>\n                    " ++
      (if summary.truthy then "<p>" ++ L.escapeHtml summary ++ "</p>" else "") ++
      "\n                    <span class=\"artifact-meta\">" ++ date ++
      "</span>\n                </div>\n            </div>\n        ")
  | _, _, _, _ => none

/-- Method `render()`; `none` when it throws: `this.artifacts` has no `map`, or
`renderArtifact` throws.  Nothing is written before the exception. -/
def render (L : Libs) (p : ArtifactsPanel) : Option ArtifactsPanel :=
  match p.listHTML with
  | none => some p
  | some _ =>
    match p.artifacts.getProp "length" with
    | none => none
    | some length =>
      if length.isZero then
        some { p with listHTML := some "<p class=\"no-artifacts\">Nenhum artifact ainda</p>" }
      else
        match p.artifacts with
        | JsVal.arr items =>
          match items.mapM (renderArtifact L) with
          | some parts => some { p with listHTML := some (String.join parts) }
          | none => none
        | _ => none

/-- Method `loadArtifacts()` with the outcome of its request. -/
def loadArtifacts (L : Libs) (p : ArtifactsPanel) (r : FetchResult) : ArtifactsPanel :=
  match r.json with
  | none => p
  | some data =>
    match data.getProp "artifacts" with
    | none => p
    | some found =>
      let p1 := { p with artifacts := if found.truthy then found else JsVal.arr [] }
      match render L p1 with
      | some p2 => p2
      | none => p1

end ArtifactsPanel

/-! ## `TaskProgress.js` -/

/-- The element `#task-progress-container`. -/
structure TaskContainer where
  /-- Whether the element has class `task-progress-hidden`. -/
  hidden : Bool
  innerHTML : String
deriving DecidableEq, Repr

/-- Fields of the `TaskProgress` instance. -/
structure TaskProgress where
  currentTask : JsVal
  container : Option TaskContainer

namespace TaskProgress

/-- Method `hideTask()`. -/
def hideTask (t : TaskProgress) : TaskProgress :=
  match t.container with
  | some c => { t with container := some { c with hidden := true } }
  | none => t

/-- Method `show()`. -/
def show_ (t : TaskProgress) : TaskProgress :=
  match t.container with
  | some c => { t with container := some { c with hidden := false } }
  | none => t

/-- Method `getModeIcon(mode)`: `icons[mode] || '🔄'`. -/
def getModeIcon (L : Libs) (mode : JsVal) : String :=
  let key := jsToString L mode
  if key = "planning" then "📝"
  else if key = "execution" then "⚙️"
  else if key = "verification" then "✅"
  else match L.inherited key with
    | some text => text
    | none => "🔄"

/-- Method `getModeColor(mode)`: `colors[mode] || '#6b7280'`. -/
def getModeColor (L : Libs) (mode : JsVal) : String :=
  let key := jsToString L mode
  if key = "planning" then "#3b82f6"
  else if key = "execution" then "#f59e0b"
  else if key = "verification" then "#10b981"
  else match L.inherited key with
    | some text => text
    | none => "#6b7280"

/-- Method `renderSubtasks()` for a task that is not nullish; `none` when
`subtasks` is truthy, has a length other than 0 and has no `map`. -/
def renderSubtasks (L : Libs) (task : JsVal) : Option String :=
  match task.getProp "subtasks" with
  | none => none
  | some subtasks =>
    if !subtasks.truthy then some ""
    else match subtasks.getProp "length" with
      | none => none
      | some length =>
        if length.isZero then some ""
        else
          match subtasks with
          | JsVal.arr items =>
            let subtasksList :=
              String.join (items.map (fun st => "<li>" ++ L.escapeHtml st ++ "</li>"))
            some ("\n            <div class=\"subtasks\">\n                <h4>Subtasks:</h4>\n" ++
              "                <ul>" ++ subtasksList ++ "</ul>\n            </div>\n        ")
          | _ => none

/-- Method `render()`; `none` when it throws: `mode` is not a string, or
`renderSubtasks` throws.  Nothing is written before the exception. -/
def render (L : Libs) (t : TaskProgress) : Option TaskProgress :=
  match t.container with
  | none => some t
  | some c =>
    if !t.currentTask.truthy then some t
    else
      match t.currentTask.getProp "mode", t.currentTask.getProp "progress",
          t.currentTask.getProp "name", t.currentTask.getProp "status" with
      | some mode, some found, some name, some status =>
        let modeIcon := getModeIcon L mode
        let modeColor := getModeColor L mode
        let progress := if found.truthy then found else JsVal.num 0
        match mode, renderSubtasks L t.currentTask with
        | JsVal.str modeText, some subtasks =>
          let html :=
            "\n            <div class=\"task-progress-card\">\n" ++
            "                <div class=\"task-header\">\n" ++
            "                    <div class=\"mode-badge\" style=\"background-color: " ++ modeColor ++
            "\">\n                        <span class=\"mode-icon\">" ++ modeIcon ++
            "</span>\n                        <span class=\"mode-text\">" ++ L.toUpperCase modeText ++
            "</span>\n                    </div>\n" ++
            "                    <button class=\"task-close\" onclick=\"taskProgress.hideTask()\">✕</button>\n" ++
            "                </div>\n                \n                <div class=\"task-body\">\n" ++
            "                    <h3 class=\"task-name\">" ++ L.escapeHtml name ++
            "</h3>\n                    \n                    <div class=\"progress-container\">\n" ++
            "                        <div class=\"progress-bar\">\n" ++
            "                            <div class=\"progress-fill\" style=\"width: " ++
            jsToString L progress ++ "%; background-color: " ++ modeColor ++
            "\"></div>\n                        </div>\n" ++
            "                        <span class=\"progress-text\">" ++ jsToString L progress ++
            "%</span>\n                    </div>\n                    \n" ++
            "                    <p class=\"task-status\">" ++ L.escapeHtml status ++
            "</p>\n                    \n                    " ++ subtasks ++
            "\n                </div>\n            </div>\n        "
          some { t with container := some { c with innerHTML := html } }
        | _, _ => none
      | _, _, _, _ => none

/-- Method `updateTask(task)`.  The result pairs the instance as the call leaves
it with `true` when `render` threw, in which case `show` does not run. -/
def updateTask (L : Libs) (t : TaskProgress) (task : JsVal) : TaskProgress × Bool :=
  let t1 := { t with currentTask := task }
  match render L t1 with
  | some t2 => (show_ t2, false)
  | none => (t1, true)

/-- One run of the timer callback of `startPolling()` with the outcome of its request. -/
def pollTick (L : Libs) (t : TaskProgress) (r : FetchResult) : TaskProgress :=
  match r.json with
  | none => t
  | some data =>
    match (if data.truthy then data.getProp "name" else some data) with
    | none => t
    | some found => if found.truthy then (updateTask L t data).1 else hideTask t

end TaskProgress

/-! ## Statements about the stream of server messages -/

/-- Concatenation, in arrival order, of the contents of the `chunk` frames. -/
def chunkText : List ServerMessage → String
  | [] => ""
  | m :: ms => if m.type = "chunk" then m.content ++ chunkText ms else chunkText ms

/-- Whether a `chunk` frame occurs in the list. -/
def hasChunk (msgs : List ServerMessage) : Bool :=
  msgs.any (fun m => decide (m.type = "chunk"))

/-- A message element showing `text`: its raw text is `text`, its markup the
formatter applied to `text`. -/
def MessageElement.showing (L : Libs) (m : MessageElement) (text : String) : MessageElement :=
  { m with dataRawText := some text, innerHTML := L.parse text }

/-- The last element of the transcript after the frames `msgs` reached the
assistant element `last`: untouched without a chunk, showing the accumulated
text otherwise. -/
def streamedInto (L : Libs) (last : MessageElement) (msgs : List ServerMessage) : MessageElement :=
  if hasChunk msgs then last.showing L (last.rawText ++ chunkText msgs) else last

/-- The user element `sendMessage` appends for the trimmed text `text`. -/
def userElement (L : Libs) (text : String) : MessageElement :=
  { className := "message user-message", avatar := "👤", dataRawText := none,
    innerHTML := L.parse text }

/-- The empty assistant element `sendMessage` appends. -/
def emptyAssistantElement : MessageElement :=
  { className := "message assistant-message", avatar := "🤖", dataRawText := none, innerHTML := "" }

/-- A sample choice of the libraries: the formatter wraps its input in a
paragraph, the highlighter and the diagram pass mark what they touched. -/
def sampleLibs : Libs :=
  { parse := fun text => "<p>" ++ text ++ "</p>"
    prism := fun html => html ++ "<!--prism-->"
    mermaid := fun html => html ++ "<!--mermaid-->"
    toStr := fun _ => "[value]"
    stringify := fun _ => "[json]"
    escapeHtml := fun _ => "[escaped]"
    formatDate := fun _ => "[date]"
    toUpperCase := fun text => String.mk (text.data.map Char.toUpper)
    inherited := fun _ => none }

/-- A page with an open socket and ` hi ` typed into the input. -/
def sampleTyped : State :=
  { App.initial with inputValue := " hi ", readyState := ReadyState.open }

/-- Two chunks with a tool call and a frame of unknown type in between. -/
def sampleFrames : List ServerMessage :=
  [{ type := "chunk", content := "He" },
   { type := "tool_call", tool := "read_file", args := JsVal.obj [("path", JsVal.str "a.txt")] },
   { type := "ping" },
   { type := "chunk", content := "llo" }]

/-- The page of `sampleTyped` once its message was sent: a reply is streaming
and new text waits in the input. -/
def sampleStreaming : State :=
  { App.sendMessage sampleLibs sampleTyped with inputValue := "more" }

namespace App

/-- The invariant of the transcript: while `isStreaming` is set, the transcript
ends with an assistant element, the one being streamed. -/
def StreamsIntoLast (s : State) : Prop :=
  s.isStreaming = true → ∃ last : MessageElement, s.messages.getLast? = some last ∧ last.isAssistant = true

/-- Events that replace the transcript as a whole: a call of `newChat`, and the
settling of a `loadConversation` request (the call of `loadConversation` writes
nothing). -/
def Event.replacesTranscript : Event → Bool
  | Event.newChat => true
  | Event.loadConversationSettles _ _ => true
  | _ => false

/-- A run in which the transcript is replaced (`newChat` is called, a
`loadConversation` request settles) only while no reply is streaming. -/
def replacesOnlyWhenIdle (L : Libs) : State → List Event → Bool
  | _, [] => true
  | s, e :: es =>
    (!e.replacesTranscript || !s.isStreaming) && replacesOnlyWhenIdle L (step L s e) es

/-- A run that starts a reply and opens a new chat before the reply is done. -/
def sampleNewChatMidStream : List Event :=
  [Event.wsOpen, Event.typeInput "hi", Event.sendMessage,
   Event.wsMessage { type := "chunk", content := "He" }, Event.newChat]

/-- A conversation as the server returns it, ending with a user message. -/
def sampleConversation : FetchResult :=
  FetchResult.response 200 (some (JsVal.obj [("messages", JsVal.arr
    [JsVal.obj [("role", JsVal.str "assistant"), ("content", JsVal.str "Hello")],
     JsVal.obj [("role", JsVal.str "user"), ("content", JsVal.str "thanks")]])]))

/-- A run in which a stored conversation is requested while nothing streams,
a message is sent and a chunk of the reply arrives, and then the request
settles, before the reply is done. -/
def sampleLoadMidStream : List Event :=
  [Event.wsOpen, Event.loadConversation "7", Event.typeInput "hi", Event.sendMessage,
   Event.wsMessage { type := "chunk", content := "He" },
   Event.loadConversationSettles "7" sampleConversation]

/-- A run with a reply during which a stored conversation is requested, a
dropped connection, a reconnection, the end of the reply, and only then the
settling of the request and a new chat. -/
def sampleIdleNewChat : List Event :=
  [Event.wsOpen, Event.typeInput "hi", Event.sendMessage, Event.loadConversation "7",
   Event.wsMessage { type := "chunk", content := "He" }, Event.wsClose, Event.timerFires,
   Event.wsOpen, Event.wsMessage { type := "done" },
   Event.loadConversationSettles "7" sampleConversation, Event.newChat,
   Event.typeInput "again", Event.sendMessage]

/-- A page whose socket is still connecting, with `hi` typed into the input. -/
def sampleConnecting : State :=
  { initial with inputValue := "hi" }

/-- A page whose socket has closed, with `hi` typed into the input. -/
def sampleClosed : State :=
  { initial with inputValue := "hi", readyState := ReadyState.closed }

/-- A page after a finished exchange: `hi` was sent, the reply `He` arrived and
`done` ended it. -/
def sampleFinished : State :=
  run sampleLibs initial [Event.wsOpen, Event.typeInput "hi", Event.sendMessage,
    Event.wsMessage { type := "chunk", content := "He" }, Event.wsMessage { type := "done" }]

/-- The five admonition kinds, as the class suffixes `renderer.blockquote` writes. -/
def alertKinds : List String :=
  ["note", "tip", "important", "warning", "caution"]

/-- The marker `[!K]` of a kind, `K` being the kind in upper case. -/
def alertMarker (kind : String) : String :=
  "[!" ++ asciiUpperCase kind ++ "]"

/-- The registration `setTimeout(connectWebSocket, 3000)`. -/
def reconnectTimer : Timer :=
  { callback := TimerCallback.connectWebSocket, delayMs := 3000 }

/-- A reconnection attempt that fails: the pending timer fires, the new socket
starts connecting, and it closes without ever opening. -/
def failedAttempt (L : Libs) (s : State) : State :=
  step L (step L s Event.timerFires) Event.wsClose

/-- The state `n` failed reconnection attempts after `s`. -/
def afterFailedAttempts (L : Libs) : Nat → State → State
  | 0, s => s
  | n + 1, s => failedAttempt L (afterFailedAttempts L n s)

/-- A page with an open socket, an earlier exchange in the transcript and `more` typed. -/
def sampleSecondTurn : State :=
  { sampleFinished with inputValue := "more" }

end App

/-- An artifacts panel showing one artifact. -/
def sampleArtifactsPanel : ArtifactsPanel :=
  { artifacts := JsVal.arr [JsVal.obj [("name", JsVal.str "plan.md"), ("type", JsVal.str "task")]]
    conversationId := "default"
    isVisible := true
    listHTML := some "<div class=\"artifact-item\">plan.md</div>" }

/-- A task panel showing a task. -/
def sampleTaskProgress : TaskProgress :=
  { currentTask := JsVal.obj [("name", JsVal.str "Build"), ("mode", JsVal.str "execution")]
    container := some { hidden := false, innerHTML := "<div class=\"task-progress-card\"></div>" } }

/-- A response with status 500 whose body is the JSON object of an error. -/
def sampleErrorResponse : FetchResult :=
  FetchResult.response 500 (some (JsVal.obj [("detail", JsVal.str "Internal Server Error")]))

/-- A choice of the libraries under which the formatter, the highlighter and
the diagram pass return their input. -/
def plainLibs : Libs :=
  { sampleLibs with parse := fun text => text, prism := fun html => html,
                    mermaid := fun html => html }

/-- Frames without a chunk: a tool call and its result. -/
def sampleToolFrames : List ServerMessage :=
  [{ type := "tool_call", tool := "read_file", args := JsVal.obj [("path", JsVal.str "a.txt")] },
   { type := "tool_result", tool := "read_file", result := "contents" }]

/-- A page showing a stored conversation that ends with a user message. -/
def sampleLoaded : State :=
  App.loadConversation sampleLibs App.initial "7" App.sampleConversation

/-- Whether the markup `html` begins with the text `opening`. -/
def beginsWith (html opening : String) : Bool :=
  opening.data.isPrefixOf html.data

/-! # Theorems -/

namespace App

theorem rawText_showing (L : Libs) (m : MessageElement) (t : String) :
    (m.showing L t).rawText = t := by
  unfold MessageElement.rawText MessageElement.showing
  by_cases ht : t = "" <;> simp [ht]

theorem isAssistant_showing (L : Libs) (m : MessageElement) (t : String) :
    (m.showing L t).isAssistant = m.isAssistant := rfl

theorem showing_showing (L : Libs) (m : MessageElement) (t u : String) :
    (m.showing L t).showing L u = m.showing L u := rfl

theorem chunkText_eq_empty_of_no_chunk (msgs : List ServerMessage) (h : hasChunk msgs = false) :
    chunkText msgs = "" := by
  induction msgs with
  | nil => rfl
  | cons m ms ih =>
    simp only [hasChunk, List.any_cons, Bool.or_eq_false_iff, decide_eq_false_iff_not] at h
    simp only [chunkText, h.1, if_false]
    exact ih h.2

/-- A frame that is neither `chunk` nor `done` leaves the transcript and the streaming flag alone. -/
theorem onmessage_other (L : Libs) (s : State) (m : ServerMessage)
    (hc : m.type ≠ "chunk") (hd : m.type ≠ "done") :
    (onmessage L s m).messages = s.messages ∧ (onmessage L s m).isStreaming = s.isStreaming := by
  unfold onmessage
  simp only [hc, hd, if_false]
  split_ifs <;> cases s.terminalDashboard <;> simp

theorem appendToLastMessage_assistant (L : Libs) (s : State) (last : MessageElement) (chunk : String)
    (hlast : s.messages.getLast? = some last) (ha : last.isAssistant = true) :
    appendToLastMessage L s chunk =
      { s with messages := s.messages.dropLast ++ [last.showing L (last.rawText ++ chunk)] } := by
  unfold appendToLastMessage
  simp [hlast, ha, MessageElement.showing]

theorem foldl_onmessage_no_done (L : Libs) (msgs : List ServerMessage) :
    ∀ (s : State) (last : MessageElement),
      s.messages.getLast? = some last → last.isAssistant = true →
      (∀ m ∈ msgs, m.type ≠ "done") →
      (msgs.foldl (onmessage L) s).messages = s.messages.dropLast ++ [streamedInto L last msgs] ∧
      (msgs.foldl (onmessage L) s).isStreaming = s.isStreaming := by
  induction msgs with
  | nil =>
    intro s last hlast _ _
    simp [streamedInto, hasChunk]
    exact (List.dropLast_append_getLast? last hlast).symm
  | cons m ms ih =>
    intro s last hlast ha hnd
    have hm : m.type ≠ "done" := hnd m (List.mem_cons_self _ _)
    have hms : ∀ x ∈ ms, x.type ≠ "done" := fun x hx => hnd x (List.mem_cons_of_mem _ hx)
    simp only [List.foldl_cons]
    by_cases hc : m.type = "chunk"
    · have hstep : onmessage L s m = appendToLastMessage L s m.content := by
        unfold onmessage; simp [hc]
      rw [hstep, appendToLastMessage_assistant L s last m.content hlast ha]
      have h1 := ih { s with messages := s.messages.dropLast ++
          [last.showing L (last.rawText ++ m.content)] }
        (last.showing L (last.rawText ++ m.content)) (by simp)
        (by rw [isAssistant_showing]; exact ha) hms
      refine ⟨?_, h1.2⟩
      rw [h1.1]
      simp only [List.dropLast_concat]
      congr 2
      unfold streamedInto
      have hc2 : hasChunk (m :: ms) = true := by simp [hasChunk, hc]
      simp only [hc2, if_true, chunkText, hc]
      by_cases h2 : hasChunk ms = true
      · simp [h2, rawText_showing, showing_showing, String.append_assoc]
      · have h3 : hasChunk ms = false := by simpa using h2
        simp [h3, chunkText_eq_empty_of_no_chunk ms h3]
    · obtain ⟨hmsg, hstr⟩ := onmessage_other L s m hc hm
      have h1 := ih (onmessage L s m) last (by rw [hmsg]; exact hlast) ha hms
      rw [h1.1, h1.2, hmsg, hstr]
      refine ⟨?_, rfl⟩
      congr 2
      unfold streamedInto
      simp [hasChunk, chunkText, hc]

theorem sendMessage_reject (L : Libs) (s : State)
    (h : jsTrim s.inputValue = "" ∨ s.isStreaming = true) : sendMessage L s = s := by
  unfold sendMessage
  simp [h]

theorem sendMessage_accept (L : Libs) (s : State)
    (htext : jsTrim s.inputValue ≠ "") (hidle : s.isStreaming = false) :
    sendMessage L s =
      { s with
        inputValue := ""
        messages := (highlightAll L s).messages ++
          [userElement L (jsTrim s.inputValue), emptyAssistantElement]
        isStreaming := true
        wsSendLog := s.wsSendLog ++
          [(s.readyState, { message := jsTrim s.inputValue,
                            conversation_id := s.currentConversationId })] } := by
  have h1 : ("message " ++ "user" ++ "-message" : String) = "message user-message" := by decide
  have h2 : ("message " ++ "assistant" ++ "-message" : String) = "message assistant-message" := by
    decide
  unfold sendMessage
  simp [htext, hidle, addMessage, createMessageElement, JsVal.truthy, jsToString, highlightAll,
    userElement, emptyAssistantElement, h1, h2]

theorem emptyAssistantElement_isAssistant : emptyAssistantElement.isAssistant = true := by decide

theorem emptyAssistantElement_rawText : emptyAssistantElement.rawText = "" := by decide


/-- C1: after an accepted `sendMessage`, any frames without a `done` leave the
last element of the transcript holding, as raw text, the concatenation of the
chunk contents in arrival order and, as markup, the formatter applied to that
concatenation (the empty markup of the new element while no chunk has arrived,
which is the formatter's output for the empty text whenever that output is
empty); the elements before it and `isStreaming = true` are untouched.  Sending
`hi` and receiving `He`, `llo`, `done` gives a user element for `hi`, an
assistant element with raw text `Hello`, and `isStreaming = false`. -/
theorem stream_shows_concatenation (L : Libs) :
    (∀ (s0 : State) (msgs : List ServerMessage),
      jsTrim s0.inputValue ≠ "" → s0.isStreaming = false → (∀ m ∈ msgs, m.type ≠ "done") →
      ∃ last : MessageElement,
        (msgs.foldl (onmessage L) (sendMessage L s0)).messages.getLast? = some last ∧
        last.isAssistant = true ∧
        last.rawText = chunkText msgs ∧
        last.innerHTML = (if hasChunk msgs then L.parse (chunkText msgs) else "") ∧
        (L.parse "" = "" → last.innerHTML = L.parse (chunkText msgs)) ∧
        (msgs.foldl (onmessage L) (sendMessage L s0)).messages.dropLast =
          (sendMessage L s0).messages.dropLast ∧
        (msgs.foldl (onmessage L) (sendMessage L s0)).isStreaming = true) ∧
    run L initial [Event.wsOpen, Event.typeInput "hi", Event.sendMessage,
        Event.wsMessage { type := "chunk", content := "He" },
        Event.wsMessage { type := "chunk", content := "llo" },
        Event.wsMessage { type := "done" }] =
      { initial with
        readyState := ReadyState.open
        statusText := "Conectado"
        statusColor := "#10b981"
        messages :=
          [{ className := "message user-message", avatar := "👤", dataRawText := none,
             innerHTML := L.mermaid (L.prism (L.parse "hi")) },
           { className := "message assistant-message", avatar := "🤖", dataRawText := some "Hello",
             innerHTML := L.mermaid (L.prism (L.parse "Hello")) }]
        isStreaming := false
        wsSendLog := [(ReadyState.open, { message := "hi", conversation_id := none })] } := by
  refine ⟨?_, rfl⟩
  intro s0 msgs htext hidle hnd
  have hsend := sendMessage_accept L s0 htext hidle
  have hlast : (sendMessage L s0).messages.getLast? = some emptyAssistantElement := by
    rw [hsend]; simp
  have hstr : (sendMessage L s0).isStreaming = true := by rw [hsend]
  obtain ⟨hmsgs, hflag⟩ := foldl_onmessage_no_done L msgs (sendMessage L s0) emptyAssistantElement
    hlast emptyAssistantElement_isAssistant hnd
  refine ⟨streamedInto L emptyAssistantElement msgs, ?_, ?_, ?_, ?_, ?_, ?_, ?_⟩
  · rw [hmsgs]; simp
  · unfold streamedInto
    split_ifs
    · rw [isAssistant_showing]; exact emptyAssistantElement_isAssistant
    · exact emptyAssistantElement_isAssistant
  · unfold streamedInto
    by_cases hc : hasChunk msgs = true
    · simp [hc, rawText_showing, emptyAssistantElement_rawText]
    · have hc2 : hasChunk msgs = false := by simpa using hc
      simp [hc2, chunkText_eq_empty_of_no_chunk msgs hc2, emptyAssistantElement_rawText]
  · unfold streamedInto
    by_cases hc : hasChunk msgs = true
    · simp [hc, MessageElement.showing, emptyAssistantElement_rawText]
    · have hc2 : hasChunk msgs = false := by simpa using hc
      simp [hc2, emptyAssistantElement]
  · intro hparse
    unfold streamedInto
    by_cases hc : hasChunk msgs = true
    · simp [hc, MessageElement.showing, emptyAssistantElement_rawText]
    · have hc2 : hasChunk msgs = false := by simpa using hc
      simp [hc2, chunkText_eq_empty_of_no_chunk msgs hc2, emptyAssistantElement, hparse]
  · rw [hmsgs]; simp
  · rw [hflag, hstr]

theorem stream_shows_concatenation_witness :
    (∃ last : MessageElement,
      (sampleFrames.foldl (onmessage sampleLibs) (sendMessage sampleLibs sampleTyped)).messages.getLast?
        = some last ∧
      last.isAssistant = true ∧
      last.rawText = chunkText sampleFrames ∧
      last.innerHTML =
        (if hasChunk sampleFrames then sampleLibs.parse (chunkText sampleFrames) else "") ∧
      (sampleLibs.parse "" = "" → last.innerHTML = sampleLibs.parse (chunkText sampleFrames)) ∧
      (sampleFrames.foldl (onmessage sampleLibs) (sendMessage sampleLibs sampleTyped)).messages.dropLast =
        (sendMessage sampleLibs sampleTyped).messages.dropLast ∧
      (sampleFrames.foldl (onmessage sampleLibs) (sendMessage sampleLibs sampleTyped)).isStreaming
        = true) ∧
    chunkText sampleFrames = "Hello" ∧
    (∃ last : MessageElement,
      (sampleToolFrames.foldl (onmessage plainLibs) (sendMessage plainLibs sampleTyped)).messages.getLast?
        = some last ∧
      last.innerHTML = plainLibs.parse (chunkText sampleToolFrames)) :=
  ⟨(stream_shows_concatenation sampleLibs).1 sampleTyped sampleFrames (by decide) rfl (by decide),
   by decide,
   match (stream_shows_concatenation plainLibs).1 sampleTyped sampleToolFrames (by decide) rfl
      (by decide) with
   | ⟨last, h1, _, _, _, h5, _, _⟩ => ⟨last, h1, h5 rfl⟩⟩

/-- C2: `sendMessage` is rejected exactly when the trimmed input is empty or
`isStreaming` is true, and a rejected call changes nothing (no element, no
`ws.send`, same input, same flag).  Every other call empties the input, appends
the user element for the trimmed text and then the empty assistant element
after the existing elements (which `Prism.highlightAll` has passed over), sets
`isStreaming`, and calls `ws.send` once with the trimmed text and the current
conversation id; on an open socket that is exactly one transmitted frame. -/
theorem sendMessage_guard (L : Libs) (s : State) :
    (jsTrim s.inputValue = "" ∨ s.isStreaming = true → sendMessage L s = s) ∧
    (¬ (jsTrim s.inputValue = "" ∨ s.isStreaming = true) →
      (sendMessage L s).messages =
        (highlightAll L s).messages ++ [userElement L (jsTrim s.inputValue), emptyAssistantElement] ∧
      (sendMessage L s).messages.length = s.messages.length + 2 ∧
      (sendMessage L s).messages.map (fun m => (m.className, m.dataRawText)) =
        s.messages.map (fun m => (m.className, m.dataRawText)) ++
          [("message user-message", none), ("message assistant-message", none)] ∧
      (sendMessage L s).isStreaming = true ∧
      (sendMessage L s).inputValue = "" ∧
      (sendMessage L s).wsSendLog = s.wsSendLog ++
        [(s.readyState, { message := jsTrim s.inputValue,
                          conversation_id := s.currentConversationId })] ∧
      (s.readyState = ReadyState.open →
        (sendMessage L s).transmitted = s.transmitted ++
          [{ message := jsTrim s.inputValue, conversation_id := s.currentConversationId }]) ∧
      sendMessage L s ≠ s) := by
  refine ⟨sendMessage_reject L s, ?_⟩
  intro h
  have htext : jsTrim s.inputValue ≠ "" := fun e => h (Or.inl e)
  have hidle : s.isStreaming = false := by
    cases hs : s.isStreaming
    · rfl
    · exact absurd (Or.inr hs) h
  have hsend := sendMessage_accept L s htext hidle
  refine ⟨by rw [hsend], ?_, ?_, by rw [hsend], by rw [hsend], by rw [hsend], ?_, ?_⟩
  · rw [hsend]; simp [highlightAll]
  · rw [hsend]
    simp [highlightAll, userElement, emptyAssistantElement, Function.comp_def]
  · intro hopen
    rw [hsend]
    simp [State.transmitted, hopen]
  · intro heq
    have : (sendMessage L s).isStreaming = true := by rw [hsend]
    rw [heq, hidle] at this
    exact Bool.false_ne_true this

theorem sendMessage_guard_witness :
    sendMessage sampleLibs sampleStreaming = sampleStreaming ∧
    (sendMessage sampleLibs sampleTyped).messages =
      (highlightAll sampleLibs sampleTyped).messages ++
        [userElement sampleLibs (jsTrim sampleTyped.inputValue), emptyAssistantElement] ∧
    (sendMessage sampleLibs sampleTyped).isStreaming = true ∧
    (sendMessage sampleLibs sampleTyped).transmitted = [{ message := "hi", conversation_id := none }] :=
  ⟨(sendMessage_guard sampleLibs sampleStreaming).1 (Or.inr (by decide)),
   ((sendMessage_guard sampleLibs sampleTyped).2 (by decide)).1,
   ((sendMessage_guard sampleLibs sampleTyped).2 (by decide)).2.2.2.1,
   ((sendMessage_guard sampleLibs sampleTyped).2 (by decide)).2.2.2.2.2.2.1 (by decide)⟩

theorem createMessageElement_isStreaming (L : Libs) (s s2 : State) (role content : JsVal)
    (el : MessageElement) (h : createMessageElement L s role content = some (s2, el)) :
    s2.isStreaming = s.isStreaming := by
  unfold createMessageElement at h
  by_cases ht : content.truthy = true
  · simp only [ht, if_true] at h
    cases content <;> simp only [Option.some.injEq, Prod.mk.injEq, reduceCtorEq] at h
    rw [← h.1]; rfl
  · simp only [ht, Bool.false_eq_true, if_false, Option.some.injEq, Prod.mk.injEq] at h
    rw [← h.1]

theorem addMessage_isStreaming (L : Libs) (s s1 : State) (role content : JsVal)
    (h : addMessage L s role content = some s1) : s1.isStreaming = s.isStreaming := by
  unfold addMessage at h
  cases h4 : createMessageElement L s role content with
  | none => simp [h4] at h
  | some pr =>
    obtain ⟨s2, el⟩ := pr
    simp only [h4, Option.some.injEq] at h
    subst h
    exact createMessageElement_isStreaming L s s2 role content el h4

theorem addLoadedMessages_isStreaming (L : Libs) (msgs : List JsVal) :
    ∀ s : State, (addLoadedMessages L s msgs).isStreaming = s.isStreaming := by
  induction msgs with
  | nil => intro s; rfl
  | cons msg rest ih =>
    intro s
    unfold addLoadedMessages
    cases h1 : msg.getProp "role" <;> cases h2 : msg.getProp "content" <;> simp only []
    rename_i role content
    cases h3 : addMessage L s role content with
    | none => rfl
    | some s1 =>
      simp only []
      rw [ih s1]
      exact addMessage_isStreaming L s s1 role content h3

theorem loadConversation_isStreaming (L : Libs) (s : State) (id : String) (r : FetchResult) :
    (loadConversation L s id r).isStreaming = s.isStreaming := by
  unfold loadConversation
  cases r.json with
  | none => rfl
  | some data =>
    simp only []
    split
    · rw [addLoadedMessages_isStreaming]
    · rfl

theorem streamsIntoLast_of_idle (s : State) (h : s.isStreaming = false) : StreamsIntoLast s := by
  intro h2
  rw [h] at h2
  exact absurd h2 Bool.false_ne_true

theorem appendToLastMessage_streamsIntoLast (L : Libs) (s : State) (chunk : String)
    (h : StreamsIntoLast s) : StreamsIntoLast (appendToLastMessage L s chunk) := by
  cases hl : s.messages.getLast? with
  | none =>
    have : appendToLastMessage L s chunk = s := by unfold appendToLastMessage; simp [hl]
    rw [this]; exact h
  | some last =>
    by_cases ha : last.isAssistant = true
    · rw [appendToLastMessage_assistant L s last chunk hl ha]
      intro _
      exact ⟨last.showing L (last.rawText ++ chunk), by simp, by rw [isAssistant_showing]; exact ha⟩
    · have : appendToLastMessage L s chunk = s := by unfold appendToLastMessage; simp [hl, ha]
      rw [this]; exact h

theorem onmessage_streamsIntoLast (L : Libs) (s : State) (m : ServerMessage)
    (h : StreamsIntoLast s) : StreamsIntoLast (onmessage L s m) := by
  by_cases hc : m.type = "chunk"
  · have : onmessage L s m = appendToLastMessage L s m.content := by
      unfold onmessage; simp [hc]
    rw [this]
    exact appendToLastMessage_streamsIntoLast L s m.content h
  · by_cases hd : m.type = "done"
    · apply streamsIntoLast_of_idle
      unfold onmessage
      simp [hc, hd, finalizePass, highlightAll]
    · obtain ⟨h1, h2⟩ := onmessage_other L s m hc hd
      intro hs
      rw [h2] at hs
      rw [h1]
      exact h hs

theorem sendMessage_streamsIntoLast (L : Libs) (s : State)
    (h : StreamsIntoLast s) : StreamsIntoLast (sendMessage L s) := by
  by_cases hr : jsTrim s.inputValue = "" ∨ s.isStreaming = true
  · rw [sendMessage_reject L s hr]; exact h
  · have htext : jsTrim s.inputValue ≠ "" := fun e => hr (Or.inl e)
    have hidle : s.isStreaming = false := by
      cases hs : s.isStreaming
      · rfl
      · exact absurd (Or.inr hs) hr
    intro _
    exact ⟨emptyAssistantElement, by rw [sendMessage_accept L s htext hidle]; simp,
      emptyAssistantElement_isAssistant⟩

theorem step_streamsIntoLast (L : Libs) (s : State) (e : Event)
    (hidle : e.replacesTranscript = true → s.isStreaming = false)
    (h : StreamsIntoLast s) : StreamsIntoLast (step L s e) := by
  cases e with
  | typeInput text => exact h
  | sendMessage => exact sendMessage_streamsIntoLast L s h
  | wsOpen =>
    simp only [step]
    split_ifs
    · exact h
    · exact h
  | wsMessage data =>
    simp only [step]
    split_ifs
    · exact onmessage_streamsIntoLast L s data h
    · exact h
  | wsClose =>
    simp only [step]
    split_ifs
    · exact h
    · exact h
  | timerFires =>
    simp only [step]
    cases ht : s.timers with
    | nil => exact h
    | cons timer rest =>
      cases hcb : timer.callback
      simp only [hcb]
      exact h
  | newChat =>
    exact streamsIntoLast_of_idle _ (hidle rfl)
  | loadConversation id => exact h
  | loadConversationSettles id r =>
    apply streamsIntoLast_of_idle
    simp only [step]
    split_ifs
    · rw [loadConversation_isStreaming]
      exact hidle rfl
    · exact hidle rfl

theorem run_streamsIntoLast (L : Libs) (events : List Event) :
    ∀ s : State, replacesOnlyWhenIdle L s events = true → StreamsIntoLast s →
      StreamsIntoLast (run L s events) := by
  induction events with
  | nil => intro s _ h; exact h
  | cons e es ih =>
    intro s hrun h
    simp only [replacesOnlyWhenIdle, Bool.and_eq_true, Bool.or_eq_true, Bool.not_eq_true'] at hrun
    refine ih (step L s e) hrun.2 (step_streamsIntoLast L s e ?_ h)
    intro hrep
    rcases hrun.1 with h1 | h1
    · rw [hrep] at h1; exact absurd h1 (by decide)
    · exact h1

theorem createMessageElement_messages_congr (L : Libs) (s t : State) (role content : JsVal)
    (h : s.messages = t.messages) :
    (createMessageElement L s role content).map (fun pr => (pr.1.messages, pr.2)) =
      (createMessageElement L t role content).map (fun pr => (pr.1.messages, pr.2)) := by
  unfold createMessageElement
  by_cases ht : content.truthy = true
  · simp only [ht, if_true]
    cases content <;> simp [highlightAll, h]
  · simp [ht, h]

theorem addMessage_messages_congr (L : Libs) (s t : State) (role content : JsVal)
    (h : s.messages = t.messages) :
    (addMessage L s role content).map (fun u => u.messages) =
      (addMessage L t role content).map (fun u => u.messages) := by
  have hc := createMessageElement_messages_congr L s t role content h
  unfold addMessage
  cases hs : createMessageElement L s role content with
  | none =>
    cases ht : createMessageElement L t role content with
    | none => rfl
    | some pr => rw [hs, ht] at hc; simp at hc
  | some pr =>
    cases ht : createMessageElement L t role content with
    | none => rw [hs, ht] at hc; simp at hc
    | some pr2 =>
      rw [hs, ht] at hc
      simp only [Option.map_some', Option.some.injEq, Prod.mk.injEq] at hc
      simp [hc.1, hc.2]

/-- The elements `addLoadedMessages` leaves depend on the elements it started
from and on nothing else in the state. -/
theorem addLoadedMessages_messages_congr (L : Libs) (msgs : List JsVal) :
    ∀ s t : State, s.messages = t.messages →
      (addLoadedMessages L s msgs).messages = (addLoadedMessages L t msgs).messages := by
  induction msgs with
  | nil => intro s t h; exact h
  | cons msg rest ih =>
    intro s t h
    unfold addLoadedMessages
    cases h1 : msg.getProp "role" <;> cases h2 : msg.getProp "content" <;> simp only [] <;>
      try exact h
    rename_i role content
    have hc := addMessage_messages_congr L s t role content h
    cases hs : addMessage L s role content with
    | none =>
      cases ht : addMessage L t role content with
      | none => exact h
      | some t1 => rw [hs, ht] at hc; simp at hc
    | some s1 =>
      cases ht : addMessage L t role content with
      | none => rw [hs, ht] at hc; simp at hc
      | some t1 =>
        rw [hs, ht] at hc
        simp only [Option.map_some', Option.some.injEq] at hc
        exact ih s1 t1 hc

theorem createMessageElement_currentConversationId (L : Libs) (s s2 : State)
    (role content : JsVal) (el : MessageElement)
    (h : createMessageElement L s role content = some (s2, el)) :
    s2.currentConversationId = s.currentConversationId := by
  unfold createMessageElement at h
  by_cases ht : content.truthy = true
  · simp only [ht, if_true] at h
    cases content <;> simp only [Option.some.injEq, Prod.mk.injEq, reduceCtorEq] at h
    rw [← h.1]; rfl
  · simp only [ht, Bool.false_eq_true, if_false, Option.some.injEq, Prod.mk.injEq] at h
    rw [← h.1]

theorem addMessage_currentConversationId (L : Libs) (s s1 : State) (role content : JsVal)
    (h : addMessage L s role content = some s1) :
    s1.currentConversationId = s.currentConversationId := by
  unfold addMessage at h
  cases h4 : createMessageElement L s role content with
  | none => simp [h4] at h
  | some pr =>
    obtain ⟨s2, el⟩ := pr
    simp only [h4, Option.some.injEq] at h
    subst h
    exact createMessageElement_currentConversationId L s s2 role content el h4

theorem addLoadedMessages_currentConversationId (L : Libs) (msgs : List JsVal) :
    ∀ s : State,
      (addLoadedMessages L s msgs).currentConversationId = s.currentConversationId := by
  induction msgs with
  | nil => intro s; rfl
  | cons msg rest ih =>
    intro s
    unfold addLoadedMessages
    cases h1 : msg.getProp "role" <;> cases h2 : msg.getProp "content" <;> simp only []
    rename_i role content
    cases h3 : addMessage L s role content with
    | none => rfl
    | some s1 =>
      simp only []
      rw [ih s1]
      exact addMessage_currentConversationId L s s1 role content h3

/-- Once its request has settled with a JSON body, `loadConversation` shows what
loading the same body into the empty page shows. -/
theorem loadConversation_messages_fresh (L : Libs) (s : State) (id : String) (r : FetchResult)
    (data : JsVal) (hr : r.json = some data) :
    (loadConversation L s id r).messages = (loadConversation L initial id r).messages := by
  unfold loadConversation
  simp only [hr]
  split
  · exact addLoadedMessages_messages_congr L _ _ _ rfl
  · rfl

/-- C3, as the code has it: along every run from a state that is not streaming
in which `newChat` is called, and a `loadConversation` request settles, only
while `isStreaming` is false (any order of typing, `sendMessage`, calls of
`loadConversation`, socket open, frames of every type, socket close and
reconnection timer in between), whenever `isStreaming` is true the transcript
is not empty and ends with the assistant element being streamed.  `newChat`
empties the transcript.  A call of `loadConversation` writes nothing; when its
request settles with a JSON body the transcript is replaced by the loaded
messages, that is by what loading the body into the empty page shows, and when
the request fails the page stays as it is.  Neither changes `isStreaming`. -/
theorem streaming_turn_is_last (L : Libs) (s0 : State) (events : List Event)
    (hidle : s0.isStreaming = false) (hrun : replacesOnlyWhenIdle L s0 events = true) :
    ((run L s0 events).isStreaming = true →
      ∃ last : MessageElement,
        (run L s0 events).messages.getLast? = some last ∧ last.isAssistant = true) ∧
    (∀ s : State, (newChat s).messages = [] ∧ (newChat s).isStreaming = s.isStreaming) ∧
    (∀ (s : State) (id : String),
      (step L s (Event.loadConversation id)).messages = s.messages ∧
      (step L s (Event.loadConversation id)).isStreaming = s.isStreaming ∧
      id ∈ (step L s (Event.loadConversation id)).pendingLoads) ∧
    (∀ (s : State) (id : String) (r : FetchResult),
      (loadConversation L s id r).isStreaming = s.isStreaming ∧
      (∀ data : JsVal, r.json = some data →
        (loadConversation L s id r).messages = (loadConversation L initial id r).messages ∧
        (loadConversation L s id r).currentConversationId = some id) ∧
      (r.json = none → loadConversation L s id r = s)) ∧
    (∀ (s : State) (id : String) (r : FetchResult), id ∈ s.pendingLoads →
      (step L s (Event.loadConversationSettles id r)).isStreaming = s.isStreaming ∧
      ∀ data : JsVal, r.json = some data →
        (step L s (Event.loadConversationSettles id r)).messages =
          (loadConversation L initial id r).messages) := by
  refine ⟨run_streamsIntoLast L events s0 hrun (streamsIntoLast_of_idle s0 hidle),
    fun _ => ⟨rfl, rfl⟩, fun s id => ⟨rfl, rfl, by simp [step]⟩, ?_, ?_⟩
  · intro s id r
    refine ⟨loadConversation_isStreaming L s id r, ?_, ?_⟩
    · intro data hr
      refine ⟨loadConversation_messages_fresh L s id r data hr, ?_⟩
      unfold loadConversation
      simp only [hr]
      split
      · rw [addLoadedMessages_currentConversationId]
      · rfl
    · intro hr
      unfold loadConversation
      simp [hr]
  · intro s id r hin
    simp only [step, hin, if_true]
    refine ⟨loadConversation_isStreaming L _ id r, ?_⟩
    intro data hr
    exact loadConversation_messages_fresh L _ id r data hr

theorem streaming_turn_is_last_witness :
    (run sampleLibs initial sampleIdleNewChat).isStreaming = true ∧
    (∃ last : MessageElement,
      (run sampleLibs initial sampleIdleNewChat).messages.getLast? = some last ∧
      last.isAssistant = true) ∧
    (loadConversation sampleLibs sampleFinished "7" sampleConversation).messages =
      (loadConversation sampleLibs initial "7" sampleConversation).messages ∧
    (loadConversation sampleLibs initial "7" sampleConversation).messages =
      [{ className := "message assistant-message", avatar := "🤖", dataRawText := none,
         innerHTML := "<p>Hello</p><!--prism-->" },
       { className := "message user-message", avatar := "👤", dataRawText := none,
         innerHTML := "<p>thanks</p>" }] ∧
    loadConversation sampleLibs sampleFinished "7" FetchResult.rejected = sampleFinished ∧
    (step sampleLibs (step sampleLibs sampleFinished (Event.loadConversation "7"))
        (Event.loadConversationSettles "7" sampleConversation)).messages =
      (loadConversation sampleLibs initial "7" sampleConversation).messages ∧
    replacesOnlyWhenIdle sampleLibs initial sampleLoadMidStream = false :=
  ⟨by decide,
   (streaming_turn_is_last sampleLibs initial sampleIdleNewChat rfl (by decide)).1 (by decide),
   (((streaming_turn_is_last sampleLibs initial sampleIdleNewChat rfl
      (by decide)).2.2.2.1 sampleFinished "7" sampleConversation).2.1 _ rfl).1,
   by decide,
   ((streaming_turn_is_last sampleLibs initial sampleIdleNewChat rfl
      (by decide)).2.2.2.1 sampleFinished "7" FetchResult.rejected).2.2 rfl,
   ((streaming_turn_is_last sampleLibs initial sampleIdleNewChat rfl
      (by decide)).2.2.2.2 (step sampleLibs sampleFinished (Event.loadConversation "7")) "7"
      sampleConversation (by decide)).2 _ rfl,
   by decide⟩

/-- C3 fails as stated: a `newChat` while a reply is streaming empties the
transcript and leaves `isStreaming` true; a `loadConversation` called while
nothing streams, whose request settles after a message was sent and a chunk of
the reply arrived, leaves `isStreaming` true over a transcript that ends with a
user element. -/
theorem replacing_mid_stream_breaks_invariant :
    ((run sampleLibs initial sampleNewChatMidStream).isStreaming = true ∧
      (run sampleLibs initial sampleNewChatMidStream).messages = []) ∧
    ((run sampleLibs initial sampleLoadMidStream).isStreaming = true ∧
      (run sampleLibs initial sampleLoadMidStream).messages.getLast? =
        some { className := "message user-message", avatar := "👤", dataRawText := none,
               innerHTML := "<p>thanks</p>" } ∧
      ∀ last : MessageElement,
        (run sampleLibs initial sampleLoadMidStream).messages.getLast? = some last →
        last.isAssistant = false) := by
  refine ⟨⟨by decide, by decide⟩, by decide, by decide, ?_⟩
  intro last hlast
  have h : (run sampleLibs initial sampleLoadMidStream).messages.getLast? =
        some { className := "message user-message", avatar := "👤", dataRawText := none,
               innerHTML := "<p>thanks</p>" } := by decide
  rw [h] at hlast
  cases hlast
  decide

/-- C4, as the code has it: `sendMessage` does not look at the socket.  For a
non-empty trimmed input and `isStreaming = false`, on a socket that is not open
it still empties the input, appends the user element and the empty assistant
element, sets `isStreaming` and calls `ws.send` once; the socket transmits
nothing. -/
theorem sendMessage_ignores_readyState (L : Libs) (s : State)
    (hnotopen : s.readyState ≠ ReadyState.open)
    (htext : jsTrim s.inputValue ≠ "") (hidle : s.isStreaming = false) :
    (sendMessage L s).messages =
      (highlightAll L s).messages ++ [userElement L (jsTrim s.inputValue), emptyAssistantElement] ∧
    (sendMessage L s).isStreaming = true ∧
    (sendMessage L s).inputValue = "" ∧
    (sendMessage L s).wsSendLog = s.wsSendLog ++
      [(s.readyState, { message := jsTrim s.inputValue,
                        conversation_id := s.currentConversationId })] ∧
    (sendMessage L s).transmitted = s.transmitted ∧
    (sendMessage L s).messages = (sendMessage L { s with readyState := ReadyState.open }).messages := by
  have hsend := sendMessage_accept L s htext hidle
  have hsend2 := sendMessage_accept L { s with readyState := ReadyState.open } htext hidle
  refine ⟨by rw [hsend], by rw [hsend], by rw [hsend], by rw [hsend], ?_, ?_⟩
  · rw [hsend]
    simp [State.transmitted, hnotopen]
  · rw [hsend, hsend2]; rfl

theorem sendMessage_ignores_readyState_witness :
    (sendMessage sampleLibs sampleClosed).messages =
      (highlightAll sampleLibs sampleClosed).messages ++
        [userElement sampleLibs (jsTrim sampleClosed.inputValue), emptyAssistantElement] ∧
    (sendMessage sampleLibs sampleClosed).isStreaming = true ∧
    (sendMessage sampleLibs sampleClosed).transmitted = sampleClosed.transmitted :=
  ⟨(sendMessage_ignores_readyState sampleLibs sampleClosed (by decide) (by decide) rfl).1,
   (sendMessage_ignores_readyState sampleLibs sampleClosed (by decide) (by decide) rfl).2.1,
   (sendMessage_ignores_readyState sampleLibs sampleClosed (by decide) (by decide) rfl).2.2.2.2.1⟩

/-- C4 fails as stated: with the socket still connecting (and likewise with the
socket closed), `sendMessage` on the input `hi` appends two elements and sets
`isStreaming`. -/
theorem sendMessage_accepted_while_disconnected :
    sampleConnecting.readyState = ReadyState.connecting ∧
    sampleConnecting.messages = [] ∧
    sampleConnecting.isStreaming = false ∧
    (sendMessage sampleLibs sampleConnecting).messages =
      [{ className := "message user-message", avatar := "👤", dataRawText := none,
         innerHTML := "<p>hi</p>" },
       { className := "message assistant-message", avatar := "🤖", dataRawText := none,
         innerHTML := "" }] ∧
    (sendMessage sampleLibs sampleConnecting).isStreaming = true ∧
    (sendMessage sampleLibs sampleClosed).messages.length = 2 ∧
    (sendMessage sampleLibs sampleClosed).isStreaming = true := by
  decide

/-- A chunk reaches the last element exactly when that element is an
assistant element; `isStreaming` plays no part. -/
theorem appendToLastMessage_not_assistant (L : Libs) (s : State) (chunk : String)
    (h : ∀ last : MessageElement, s.messages.getLast? = some last → last.isAssistant = false) :
    appendToLastMessage L s chunk = s := by
  unfold appendToLastMessage
  cases hl : s.messages.getLast? with
  | none => rfl
  | some last => simp [h last hl]

/-- C5, as the code has it: a chunk is ignored, leaving the whole page state as
it was, when the transcript is empty or its last element is not an assistant
element; `isStreaming` is not consulted.  When the last element is an assistant
element, also one finished by `done` or loaded from history, the chunk is
appended to its raw text and the element is rendered again; the elements
before it and `isStreaming` stay as they were. -/
theorem chunk_guard_is_last_element (L : Libs) (s : State) (data : ServerMessage)
    (hchunk : data.type = "chunk") :
    (s.messages = [] → onmessage L s data = s) ∧
    (∀ last : MessageElement, s.messages.getLast? = some last → last.isAssistant = false →
      onmessage L s data = s) ∧
    (∀ last : MessageElement, s.messages.getLast? = some last → last.isAssistant = true →
      (onmessage L s data).messages =
        s.messages.dropLast ++ [last.showing L (last.rawText ++ data.content)] ∧
      (onmessage L s data).isStreaming = s.isStreaming) := by
  have hstep : onmessage L s data = appendToLastMessage L s data.content := by
    unfold onmessage; simp [hchunk]
  rw [hstep]
  refine ⟨?_, ?_, ?_⟩
  · intro hempty
    apply appendToLastMessage_not_assistant
    intro last hlast
    rw [hempty] at hlast
    simp at hlast
  · intro last hlast hna
    apply appendToLastMessage_not_assistant
    intro last2 hlast2
    rw [hlast] at hlast2
    cases hlast2
    exact hna
  · intro last hlast ha
    rw [appendToLastMessage_assistant L s last data.content hlast ha]
    exact ⟨rfl, rfl⟩

theorem chunk_guard_is_last_element_witness :
    (onmessage sampleLibs initial { type := "chunk", content := "x" } = initial) ∧
    (onmessage sampleLibs sampleLoaded { type := "chunk", content := "x" } = sampleLoaded) ∧
    (onmessage sampleLibs sampleFinished { type := "chunk", content := "y" }).messages =
      sampleFinished.messages.dropLast ++
        [MessageElement.showing sampleLibs
          { className := "message assistant-message", avatar := "🤖", dataRawText := some "He",
            innerHTML := "<p>He</p><!--prism--><!--mermaid-->" } ("He" ++ "y")] :=
  ⟨(chunk_guard_is_last_element sampleLibs initial { type := "chunk", content := "x" } rfl).1 rfl,
   (chunk_guard_is_last_element sampleLibs sampleLoaded { type := "chunk", content := "x" }
      rfl).2.1 { className := "message user-message", avatar := "👤", dataRawText := none,
                 innerHTML := "<p>thanks</p>" } (by decide) (by decide),
   ((chunk_guard_is_last_element sampleLibs sampleFinished { type := "chunk", content := "y" }
      rfl).2.2 _ (by decide) (by decide)).1⟩

/-- C5 fails as stated: after `done` has ended the reply `He`, with
`isStreaming` false, a further chunk `y` changes the last element's raw text to
`Hey` and its markup to the formatter's output for `Hey`. -/
theorem chunk_after_done_is_appended :
    sampleFinished.isStreaming = false ∧
    sampleFinished.messages.map (fun m => (m.rawText, m.innerHTML)) =
      [("", "<p>hi</p><!--prism--><!--mermaid-->"), ("He", "<p>He</p><!--prism--><!--mermaid-->")] ∧
    (onmessage sampleLibs sampleFinished { type := "chunk", content := "y" }).messages.map
        (fun m => (m.rawText, m.innerHTML)) =
      [("", "<p>hi</p><!--prism--><!--mermaid-->"), ("Hey", "<p>Hey</p>")] := by
  decide

theorem isPrefixOf_iff_append (p l : List Char) :
    p.isPrefixOf l = true ↔ ∃ b, l = p ++ b := by
  induction p generalizing l with
  | nil => simp
  | cons c cs ih =>
    cases l with
    | nil => simp
    | cons d ds =>
      simp only [List.isPrefixOf, Bool.and_eq_true, beq_iff_eq, ih, List.cons_append,
        List.cons.injEq]
      constructor
      · rintro ⟨rfl, b, rfl⟩; exact ⟨b, rfl, rfl⟩
      · rintro ⟨b, rfl, rfl⟩; exact ⟨rfl, b, rfl⟩

theorem includesChars_iff (needle hay : List Char) :
    includesChars needle hay = true ↔ ∃ a b, hay = a ++ needle ++ b := by
  induction hay with
  | nil =>
    simp only [includesChars, List.isEmpty_iff]
    constructor
    · rintro rfl; exact ⟨[], [], rfl⟩
    · rintro ⟨a, b, h⟩
      have h2 := congrArg List.length h
      simp only [List.length_nil, List.length_append] at h2
      exact List.length_eq_zero.mp (by omega)
  | cons c cs ih =>
    simp only [includesChars, Bool.or_eq_true, isPrefixOf_iff_append, ih]
    constructor
    · rintro (⟨b, h⟩ | ⟨a, b, h⟩)
      · exact ⟨[], b, by simpa using h⟩
      · exact ⟨c :: a, b, by simp [h]⟩
    · rintro ⟨a, b, h⟩
      cases a with
      | nil => left; exact ⟨b, by simpa using h⟩
      | cons d a =>
        right
        simp only [List.cons_append, List.cons.injEq] at h
        exact ⟨a, b, h.2⟩

/-- What `replace` with a string pattern does when the pattern occurs: the text
splits around the first occurrence, which is replaced. -/
theorem replaceFirstChars_spec (needle replacement hay : List Char)
    (h : includesChars needle hay = true) :
    ∃ a b, hay = a ++ needle ++ b ∧
      replaceFirstChars needle replacement hay = a ++ replacement ++ b ∧
      ∀ a2 b2, hay = a2 ++ needle ++ b2 → a.length ≤ a2.length := by
  induction hay with
  | nil =>
    simp only [includesChars, List.isEmpty_iff] at h
    subst h
    exact ⟨[], [], rfl, by simp [replaceFirstChars], fun _ _ _ => Nat.zero_le _⟩
  | cons c cs ih =>
    by_cases hp : needle.isPrefixOf (c :: cs) = true
    · obtain ⟨b, hb⟩ := (isPrefixOf_iff_append needle (c :: cs)).mp hp
      refine ⟨[], b, by simpa using hb, ?_, fun _ _ _ => Nat.zero_le _⟩
      simp only [replaceFirstChars, hp, if_true, List.nil_append]
      rw [hb]
      simp
    · have hp2 : needle.isPrefixOf (c :: cs) = false := Bool.eq_false_iff.mpr hp
      simp only [includesChars, hp2, Bool.false_or] at h
      obtain ⟨a, b, hab, hrep, hmin⟩ := ih h
      refine ⟨c :: a, b, by simp [hab], ?_, ?_⟩
      · simp only [replaceFirstChars, hp]
        simp [hrep]
      · intro a2 b2 h2
        cases a2 with
        | nil =>
          exfalso
          apply hp
          exact (isPrefixOf_iff_append needle (c :: cs)).mpr ⟨b2, by simpa using h2⟩
        | cons d a2 =>
          simp only [List.cons_append, List.cons.injEq] at h2
          simp only [List.length_cons]
          exact Nat.succ_le_succ (hmin a2 b2 h2.2)

theorem replaceFirstChars_absent (needle replacement hay : List Char)
    (h : includesChars needle hay = false) :
    replaceFirstChars needle replacement hay = hay := by
  induction hay with
  | nil =>
    simp only [includesChars] at h
    simp [replaceFirstChars, h]
  | cons c cs ih =>
    simp only [includesChars, Bool.or_eq_false_iff] at h
    simp [replaceFirstChars, h.1, ih h.2]

theorem jsReplace_empty_spec (q needle : String) (h : jsIncludes q needle = true) :
    ∃ a b : String, q = a ++ needle ++ b ∧ jsReplace q needle "" = a ++ b ∧
      ∀ a2 b2 : String, q = a2 ++ needle ++ b2 → a.length ≤ a2.length := by
  obtain ⟨a, b, hab, hrep, hmin⟩ := replaceFirstChars_spec needle.data [] q.data h
  refine ⟨String.mk a, String.mk b, ?_, ?_, ?_⟩
  · apply String.ext
    simp [hab]
  · apply String.ext
    have : ("" : String).data = [] := rfl
    simp [jsReplace, this, hrep]
  · intro a2 b2 h2
    have h3 : q.data = a2.data ++ needle.data ++ b2.data := by rw [h2]; simp
    exact hmin a2.data b2.data h3

theorem rendererBlockquote_of_alertType (q kind : String) (hk : alertType q = kind)
    (hne : kind ≠ "") :
    rendererBlockquote q =
      "<blockquote class=\"alert alert-" ++ kind ++ "\">" ++ jsReplace q (alertMarker kind) "" ++
        "</blockquote>" := by
  unfold rendererBlockquote
  simp [hk, hne, alertMarker]

/-- C6, as the code has it: when the quote contains the marker of one kind and
of no other kind, the result is the `alert alert-k` blockquote around the quote
with the first occurrence of the marker removed (the quote splits as
`a ++ marker ++ b` at the first occurrence and the body is `a ++ b`); when the
quote contains none of the five markers the result is the plain blockquote
around the quote.  The body of `> [!WARNING]` followed by `text` renders in an
`alert alert-warning` blockquote without the marker. -/
theorem blockquote_strips_first_marker (q : String) :
    (∀ kind ∈ alertKinds, jsIncludes q (alertMarker kind) = true →
      (∀ other ∈ alertKinds, other ≠ kind → jsIncludes q (alertMarker other) = false) →
      ∃ a b : String, q = a ++ alertMarker kind ++ b ∧
        rendererBlockquote q =
          "<blockquote class=\"alert alert-" ++ kind ++ "\">" ++ (a ++ b) ++ "</blockquote>" ∧
        ∀ a2 b2 : String, q = a2 ++ alertMarker kind ++ b2 → a.length ≤ a2.length) ∧
    ((∀ kind ∈ alertKinds, jsIncludes q (alertMarker kind) = false) →
      rendererBlockquote q = "<blockquote>" ++ q ++ "</blockquote>") ∧
    rendererBlockquote "<p>[!WARNING]\ntext</p>\n" =
      "<blockquote class=\"alert alert-warning\"><p>\ntext</p>\n</blockquote>" := by
  have m1 : alertMarker "note" = "[!NOTE]" := by decide
  have m2 : alertMarker "tip" = "[!TIP]" := by decide
  have m3 : alertMarker "important" = "[!IMPORTANT]" := by decide
  have m4 : alertMarker "warning" = "[!WARNING]" := by decide
  have m5 : alertMarker "caution" = "[!CAUTION]" := by decide
  refine ⟨?_, ?_, by decide⟩
  · intro kind hkind hin hothers
    have h1 := hothers "note" (by simp [alertKinds])
    have h2 := hothers "tip" (by simp [alertKinds])
    have h3 := hothers "important" (by simp [alertKinds])
    have h4 := hothers "warning" (by simp [alertKinds])
    have h5 := hothers "caution" (by simp [alertKinds])
    rw [m1] at h1; rw [m2] at h2; rw [m3] at h3; rw [m4] at h4; rw [m5] at h5
    have htype : alertType q = kind ∧ kind ≠ "" := by
      simp only [alertKinds, List.mem_cons, List.mem_singleton, List.not_mem_nil, or_false] at hkind
      rcases hkind with rfl | rfl | rfl | rfl | rfl
      · rw [m1] at hin
        exact ⟨by simp [alertType, hin], by decide⟩
      · rw [m2] at hin
        exact ⟨by simp [alertType, hin, h1 (by decide)], by decide⟩
      · rw [m3] at hin
        exact ⟨by simp [alertType, hin, h1 (by decide), h2 (by decide)], by decide⟩
      · rw [m4] at hin
        exact ⟨by simp [alertType, hin, h1 (by decide), h2 (by decide), h3 (by decide)],
          by decide⟩
      · rw [m5] at hin
        exact ⟨by simp [alertType, hin, h1 (by decide), h2 (by decide), h3 (by decide),
          h4 (by decide)], by decide⟩
    obtain ⟨a, b, hq, hrep, hmin⟩ := jsReplace_empty_spec q (alertMarker kind) hin
    refine ⟨a, b, hq, ?_, hmin⟩
    rw [rendererBlockquote_of_alertType q kind htype.1 htype.2, hrep]
  · intro hnone
    have h1 := hnone "note" (by simp [alertKinds])
    have h2 := hnone "tip" (by simp [alertKinds])
    have h3 := hnone "important" (by simp [alertKinds])
    have h4 := hnone "warning" (by simp [alertKinds])
    have h5 := hnone "caution" (by simp [alertKinds])
    rw [m1] at h1; rw [m2] at h2; rw [m3] at h3; rw [m4] at h4; rw [m5] at h5
    unfold rendererBlockquote
    simp [alertType, h1, h2, h3, h4, h5]

theorem blockquote_strips_first_marker_witness :
    (∃ a b : String, "[!TIP] use [!TIP] once" = a ++ alertMarker "tip" ++ b ∧
        rendererBlockquote "[!TIP] use [!TIP] once" =
          "<blockquote class=\"alert alert-" ++ "tip" ++ "\">" ++ (a ++ b) ++ "</blockquote>" ∧
        ∀ a2 b2 : String, "[!TIP] use [!TIP] once" = a2 ++ alertMarker "tip" ++ b2 →
          a.length ≤ a2.length) ∧
    rendererBlockquote "<p>quoted</p>" = "<blockquote>" ++ "<p>quoted</p>" ++ "</blockquote>" :=
  ⟨(blockquote_strips_first_marker "[!TIP] use [!TIP] once").1 "tip" (by decide) (by decide)
      (by decide),
   (blockquote_strips_first_marker "<p>quoted</p>").2.1 (by decide)⟩

/-- C6 fails as stated: a quote that contains `[!NOTE]` twice, and no marker of
another kind, renders as an `alert alert-note` blockquote whose body still
contains `[!NOTE]`; so does a quote in which removing the marker joins the text
around it into a new marker. -/
theorem blockquote_keeps_later_marker :
    jsIncludes "[!NOTE] see [!NOTE]" "[!NOTE]" = true ∧
    (∀ other ∈ alertKinds, other ≠ "note" →
      jsIncludes "[!NOTE] see [!NOTE]" (alertMarker other) = false) ∧
    rendererBlockquote "[!NOTE] see [!NOTE]" =
      "<blockquote class=\"alert alert-note\"> see [!NOTE]</blockquote>" ∧
    jsIncludes " see [!NOTE]" "[!NOTE]" = true ∧
    rendererBlockquote "[![!TIP]TIP]" = "<blockquote class=\"alert alert-tip\">[!TIP]</blockquote>" := by
  decide

theorem onclose_eq (s : State) :
    onclose s =
      { s with statusText := "Desconectado", statusColor := "#ef4444",
               timers := s.timers ++ [reconnectTimer] } := by
  simp [onclose, updateStatus, reconnectTimer]

theorem step_wsClose_eq (L : Libs) (s : State) (h : s.readyState ≠ ReadyState.closed) :
    step L s Event.wsClose =
      { s with readyState := ReadyState.closed, statusText := "Desconectado",
               statusColor := "#ef4444", timers := s.timers ++ [reconnectTimer] } := by
  simp [step, h, onclose_eq]

theorem afterFailedAttempts_timers (L : Libs) (s : State) (hs : s.timers = [reconnectTimer]) :
    ∀ n, (afterFailedAttempts L n s).timers = [reconnectTimer] ∧
      (afterFailedAttempts L n s).messages = s.messages ∧
      (afterFailedAttempts L n s).isStreaming = s.isStreaming := by
  intro n
  induction n with
  | zero => exact ⟨hs, rfl, rfl⟩
  | succ n ih =>
    obtain ⟨h1, h2, h3⟩ := ih
    have hfire : step L (afterFailedAttempts L n s) Event.timerFires =
        connectWebSocket { afterFailedAttempts L n s with timers := [] } := by
      simp [step, h1, reconnectTimer]
    have hclose := step_wsClose_eq L (connectWebSocket { afterFailedAttempts L n s with timers := [] })
      (by simp [connectWebSocket])
    simp only [afterFailedAttempts, failedAttempt]
    rw [hfire, hclose]
    exact ⟨by simp [connectWebSocket], h2, h3⟩

/-- C7: the handler of the close event registers exactly one timer, for
`connectWebSocket` after 3000 ms, sets the status to disconnected and changes
nothing else, in every state; after any number of failed reconnection attempts
the next attempt is again the only pending timer, again after 3000 ms.  A close
after the chunks `c1`, `c2` of a reply leaves the last element with raw text
`c1 ++ c2` and the markup of that text. -/
theorem close_schedules_reconnect (L : Libs) (s : State) :
    onclose s =
      { s with statusText := "Desconectado", statusColor := "#ef4444",
               timers := s.timers ++ [{ callback := TimerCallback.connectWebSocket,
                                        delayMs := 3000 }] } ∧
    (onclose s).messages = s.messages ∧
    (s.readyState ≠ ReadyState.closed →
      (step L s Event.wsClose).timers =
        s.timers ++ [{ callback := TimerCallback.connectWebSocket, delayMs := 3000 }] ∧
      (step L s Event.wsClose).statusText = "Desconectado" ∧
      (step L s Event.wsClose).messages = s.messages ∧
      (s.timers = [] →
        step L (step L s Event.wsClose) Event.timerFires =
          connectWebSocket { step L s Event.wsClose with timers := [] } ∧
        ∀ n, (afterFailedAttempts L n (step L s Event.wsClose)).timers =
          [{ callback := TimerCallback.connectWebSocket, delayMs := 3000 }])) ∧
    (jsTrim s.inputValue ≠ "" → s.isStreaming = false → s.readyState = ReadyState.open →
      ∀ c1 c2 : String,
        (run L s [Event.sendMessage, Event.wsMessage { type := "chunk", content := c1 },
            Event.wsMessage { type := "chunk", content := c2 }, Event.wsClose]).messages =
          (highlightAll L s).messages ++
            [userElement L (jsTrim s.inputValue),
             { className := "message assistant-message", avatar := "🤖",
               dataRawText := some (c1 ++ c2), innerHTML := L.parse (c1 ++ c2) }] ∧
        (run L s [Event.sendMessage, Event.wsMessage { type := "chunk", content := c1 },
            Event.wsMessage { type := "chunk", content := c2 }, Event.wsClose]).timers =
          s.timers ++ [{ callback := TimerCallback.connectWebSocket, delayMs := 3000 }]) := by
  refine ⟨onclose_eq s, by rw [onclose_eq], ?_, ?_⟩
  · intro hopen
    rw [step_wsClose_eq L s hopen]
    refine ⟨rfl, rfl, rfl, ?_⟩
    intro htimers
    refine ⟨?_, ?_⟩
    · simp [step, htimers, reconnectTimer]
    · intro n
      exact (afterFailedAttempts_timers L _ (by simp [htimers]) n).1
  · intro htext hidle hopen c1 c2
    have hsend := sendMessage_accept L s htext hidle
    simp only [run, List.foldl_cons, List.foldl_nil]
    have e1 : step L s Event.sendMessage = sendMessage L s := rfl
    rw [e1, hsend]
    simp only [step, hopen, if_true]
    have a1 : ∀ (t : State) (c : String), onmessage L t { type := "chunk", content := c } =
        appendToLastMessage L t c := by
      intro t c; simp [onmessage]
    rw [a1]
    rw [appendToLastMessage_assistant L _ emptyAssistantElement c1 (by simp)
      emptyAssistantElement_isAssistant]
    simp only [a1]
    rw [appendToLastMessage_assistant L _
      (emptyAssistantElement.showing L (emptyAssistantElement.rawText ++ c1)) c2 (by simp)
      (by rw [isAssistant_showing]; exact emptyAssistantElement_isAssistant)]
    have hempty : ∀ c : String, "" ++ c = c := fun c => by apply String.ext; simp
    simp only [rawText_showing, emptyAssistantElement_rawText, hempty]
    simp [onclose_eq, MessageElement.showing, emptyAssistantElement, reconnectTimer]

theorem close_schedules_reconnect_witness :
    ((step sampleLibs sampleSecondTurn Event.wsClose).timers =
        sampleSecondTurn.timers ++ [{ callback := TimerCallback.connectWebSocket, delayMs := 3000 }] ∧
      (step sampleLibs sampleSecondTurn Event.wsClose).statusText = "Desconectado" ∧
      (step sampleLibs sampleSecondTurn Event.wsClose).messages = sampleSecondTurn.messages) ∧
    (∀ n, (afterFailedAttempts sampleLibs n (step sampleLibs sampleSecondTurn Event.wsClose)).timers =
      [{ callback := TimerCallback.connectWebSocket, delayMs := 3000 }]) ∧
    (run sampleLibs sampleSecondTurn
        [Event.sendMessage, Event.wsMessage { type := "chunk", content := "He" },
          Event.wsMessage { type := "chunk", content := "llo" }, Event.wsClose]).messages =
      (highlightAll sampleLibs sampleSecondTurn).messages ++
        [userElement sampleLibs (jsTrim sampleSecondTurn.inputValue),
         { className := "message assistant-message", avatar := "🤖",
           dataRawText := some ("He" ++ "llo"), innerHTML := sampleLibs.parse ("He" ++ "llo") }] :=
  ⟨⟨((close_schedules_reconnect sampleLibs sampleSecondTurn).2.2.1 (by decide)).1,
    ((close_schedules_reconnect sampleLibs sampleSecondTurn).2.2.1 (by decide)).2.1,
    ((close_schedules_reconnect sampleLibs sampleSecondTurn).2.2.1 (by decide)).2.2.1⟩,
   (((close_schedules_reconnect sampleLibs sampleSecondTurn).2.2.1 (by decide)).2.2.2
      (by decide)).2,
   ((close_schedules_reconnect sampleLibs sampleSecondTurn).2.2.2 (by decide) (by decide)
      (by decide) "He" "llo").1⟩

/-- Only a `done` frame clears `isStreaming`. -/
theorem step_clears_streaming_only_on_done (L : Libs) (s : State) (e : Event)
    (hs : s.isStreaming = true) (h : (step L s e).isStreaming = false) :
    ∃ data : ServerMessage, e = Event.wsMessage data ∧ data.type = "done" := by
  cases e with
  | typeInput text => simp [step, hs] at h
  | sendMessage =>
    have : step L s Event.sendMessage = s := sendMessage_reject L s (Or.inr hs)
    rw [this, hs] at h
    exact absurd h (by decide)
  | wsOpen =>
    simp only [step] at h
    split_ifs at h <;> simp [onopen, updateStatus, hs] at h
  | wsMessage data =>
    refine ⟨data, rfl, ?_⟩
    by_contra hd
    simp only [step] at h
    split_ifs at h
    · by_cases hc : data.type = "chunk"
      · have e1 : onmessage L s data = appendToLastMessage L s data.content := by
          unfold onmessage; simp [hc]
        rw [e1] at h
        unfold appendToLastMessage at h
        cases hl : s.messages.getLast? with
        | none => simp [hl, hs] at h
        | some last =>
          simp only [hl] at h
          split_ifs at h <;> simp [hs] at h
      · rw [(onmessage_other L s data hc hd).2, hs] at h
        exact absurd h (by decide)
    · rw [hs] at h
      exact absurd h (by decide)
  | wsClose =>
    simp only [step] at h
    split_ifs at h <;> simp [onclose_eq, hs] at h
  | timerFires =>
    simp only [step] at h
    cases ht : s.timers with
    | nil => simp [ht, hs] at h
    | cons timer rest =>
      cases hcb : timer.callback
      simp [ht, hcb, connectWebSocket, hs] at h
  | newChat => simp [step, newChat, hs] at h
  | loadConversation id => simp [step, hs] at h
  | loadConversationSettles id r =>
    simp only [step] at h
    split_ifs at h
    · rw [loadConversation_isStreaming] at h
      simp [hs] at h
    · rw [hs] at h
      exact absurd h (by decide)

/-- C8, as the code has it: a stream ends only by a `done` frame.  The close
event leaves `isStreaming` as it is, so after a close that finds a reply
streaming, `isStreaming` is still true and a `sendMessage`, also once the
socket has reconnected and opened again, is rejected; a step that clears
`isStreaming` is the arrival of a `done` frame. -/
theorem close_keeps_streaming (L : Libs) (s : State) (hs : s.isStreaming = true) :
    (onclose s).isStreaming = true ∧
    (step L s Event.wsClose).isStreaming = true ∧
    sendMessage L (step L s Event.wsClose) = step L s Event.wsClose ∧
    (∀ text : String,
      run L s [Event.wsClose, Event.timerFires, Event.wsOpen, Event.typeInput text, Event.sendMessage] =
      run L s [Event.wsClose, Event.timerFires, Event.wsOpen, Event.typeInput text]) ∧
    (∀ e : Event, (step L s e).isStreaming = false →
      ∃ data : ServerMessage, e = Event.wsMessage data ∧ data.type = "done") := by
  have hclose : (step L s Event.wsClose).isStreaming = true := by
    simp only [step]
    split_ifs
    · exact hs
    · rw [onclose_eq]; exact hs
  refine ⟨by rw [onclose_eq]; exact hs, hclose, sendMessage_reject L _ (Or.inr hclose), ?_,
    fun e h => step_clears_streaming_only_on_done L s e hs h⟩
  intro text
  have hkeep : ∀ (t : State) (e : Event), t.isStreaming = true →
      (∀ d, e ≠ Event.wsMessage d) → (step L t e).isStreaming = true := by
    intro t e ht hne
    cases hb : (step L t e).isStreaming
    · obtain ⟨d, hd, _⟩ := step_clears_streaming_only_on_done L t e ht hb
      exact absurd hd (hne d)
    · rfl
  have h1 := hkeep _ Event.timerFires hclose (by intro d; simp)
  have h2 := hkeep _ Event.wsOpen h1 (by intro d; simp)
  have h3 := hkeep _ (Event.typeInput text) h2 (by intro d; simp)
  simp only [run, List.foldl_cons, List.foldl_nil] at *
  exact sendMessage_reject L _ (Or.inr h3)

theorem close_keeps_streaming_witness :
    (step sampleLibs sampleStreaming Event.wsClose).isStreaming = true ∧
    sendMessage sampleLibs (step sampleLibs sampleStreaming Event.wsClose) =
      step sampleLibs sampleStreaming Event.wsClose ∧
    ∃ data : ServerMessage,
      Event.wsMessage { type := "done" } = Event.wsMessage data ∧ data.type = "done" :=
  ⟨(close_keeps_streaming sampleLibs sampleStreaming (by decide)).2.1,
   (close_keeps_streaming sampleLibs sampleStreaming (by decide)).2.2.1,
   (close_keeps_streaming sampleLibs sampleStreaming (by decide)).2.2.2.2
      (Event.wsMessage { type := "done" }) (by decide)⟩

/-- C8 fails as stated: a close while a reply is streaming leaves `isStreaming`
true, and after the reconnection has opened the socket again a `sendMessage`
with the input `more` is rejected: the transcript and the send log are those
from before the close. -/
theorem close_does_not_end_stream :
    sampleStreaming.isStreaming = true ∧
    (step sampleLibs sampleStreaming Event.wsClose).isStreaming = true ∧
    (run sampleLibs sampleStreaming [Event.wsClose, Event.timerFires, Event.wsOpen]).readyState =
      ReadyState.open ∧
    (run sampleLibs sampleStreaming [Event.wsClose, Event.timerFires, Event.wsOpen]).inputValue =
      "more" ∧
    (run sampleLibs sampleStreaming
      [Event.wsClose, Event.timerFires, Event.wsOpen, Event.sendMessage]).messages =
      sampleStreaming.messages ∧
    (run sampleLibs sampleStreaming
      [Event.wsClose, Event.timerFires, Event.wsOpen, Event.sendMessage]).wsSendLog =
      sampleStreaming.wsSendLog ∧
    (run sampleLibs sampleStreaming
      [Event.wsClose, Event.timerFires, Event.wsOpen, Event.sendMessage]).isStreaming = true := by
  decide

/-- C9: handling `done` twice gives the same elements with the same classes
and raw texts, and the same `isStreaming` (false), as handling it once; when
`isStreaming` is already false, handling `done` leaves the classes, the raw
texts and `isStreaming` as they were.  The finalising pass of each `done` runs
over the markup, so the whole state is the same after the second `done`
whenever that pass changes nothing on markup it has already processed. -/
theorem done_idempotent (L : Libs) (s : State) (d : ServerMessage) (hd : d.type = "done") :
    (onmessage L (onmessage L s d) d).messages.map (fun m => (m.className, m.avatar, m.dataRawText)) =
      (onmessage L s d).messages.map (fun m => (m.className, m.avatar, m.dataRawText)) ∧
    (onmessage L (onmessage L s d) d).messages.map MessageElement.rawText =
      (onmessage L s d).messages.map MessageElement.rawText ∧
    (onmessage L (onmessage L s d) d).isStreaming = (onmessage L s d).isStreaming ∧
    (onmessage L s d).isStreaming = false ∧
    (onmessage L s d).messages.map MessageElement.rawText = s.messages.map MessageElement.rawText ∧
    (s.isStreaming = false →
      (onmessage L s d).isStreaming = s.isStreaming ∧
      (onmessage L s d).messages.map (fun m => (m.className, m.avatar, m.dataRawText)) =
        s.messages.map (fun m => (m.className, m.avatar, m.dataRawText)) ∧
      { onmessage L s d with messages := s.messages } = s) ∧
    ((∀ html : String, L.mermaid (L.prism (L.mermaid (L.prism html))) = L.mermaid (L.prism html)) →
      onmessage L (onmessage L s d) d = onmessage L s d) := by
  have hne : d.type ≠ "chunk" := by rw [hd]; decide
  have hne2 : d.type ≠ "tool_call" := by rw [hd]; decide
  have hne3 : d.type ≠ "tool_result" := by rw [hd]; decide
  have hdone : ∀ t : State, onmessage L t d = finalizePass L { t with isStreaming := false } := by
    intro t
    unfold onmessage
    simp [hd]
  simp only [hdone]
  refine ⟨?_, ?_, rfl, rfl, ?_, ?_, ?_⟩
  · simp [finalizePass, highlightAll, Function.comp_def]
  · simp [finalizePass, highlightAll, Function.comp_def, MessageElement.rawText]
  · simp [finalizePass, highlightAll, Function.comp_def, MessageElement.rawText]
  · intro hidle
    refine ⟨hidle.symm, ?_, ?_⟩
    · simp [finalizePass, highlightAll, Function.comp_def]
    · cases s
      simp only [finalizePass, highlightAll] at *
      simp [hidle]
  · intro hidem
    simp [finalizePass, highlightAll, Function.comp_def, hidem]

theorem done_idempotent_witness :
    (onmessage sampleLibs sampleFinished { type := "done" }).isStreaming = sampleFinished.isStreaming ∧
    (onmessage sampleLibs sampleFinished { type := "done" }).messages.map
        (fun m => (m.className, m.avatar, m.dataRawText)) =
      sampleFinished.messages.map (fun m => (m.className, m.avatar, m.dataRawText)) ∧
    (onmessage sampleLibs (onmessage sampleLibs sampleStreaming { type := "done" })
        { type := "done" }).messages.map MessageElement.rawText =
      (onmessage sampleLibs sampleStreaming { type := "done" }).messages.map MessageElement.rawText ∧
    onmessage plainLibs (onmessage plainLibs sampleStreaming { type := "done" }) { type := "done" } =
      onmessage plainLibs sampleStreaming { type := "done" } :=
  ⟨((done_idempotent sampleLibs sampleFinished { type := "done" } rfl).2.2.2.2.2.1 (by decide)).1,
   ((done_idempotent sampleLibs sampleFinished { type := "done" } rfl).2.2.2.2.2.1 (by decide)).2.1,
   (done_idempotent sampleLibs sampleStreaming { type := "done" } rfl).2.1,
   (done_idempotent plainLibs sampleStreaming { type := "done" } rfl).2.2.2.2.2.2 (fun _ => rfl)⟩

end App

/-- C10, as the code has it: when the request promise rejects, or the body of
the response is not valid JSON, `loadArtifacts`, the poll tick of
`TaskProgress` and `loadConfig` return with the state they found (the exception
is caught).  The status of a response is never read: two responses with the
same body are handled alike whatever their status.  For a body that is a JSON
object without `artifacts`, `name` or `llm`, such as an error object,
`loadArtifacts` sets `artifacts` to the empty array and shows the empty-state
message, the poll tick hides the task panel and keeps `currentTask`, and
`loadConfig` leaves the controls as they were. -/
theorem failed_request_keeps_state (L : Libs) :
    (∀ (p : ArtifactsPanel) (r : FetchResult), r.json = none →
      ArtifactsPanel.loadArtifacts L p r = p) ∧
    (∀ (t : TaskProgress) (r : FetchResult), r.json = none → TaskProgress.pollTick L t r = t) ∧
    (∀ (s : State) (r : FetchResult), r.json = none → App.loadConfig L s r = s) ∧
    (FetchResult.rejected.json = none ∧
      ∀ status : Nat, (FetchResult.response status none).json = none) ∧
    (∀ (status1 status2 : Nat) (body : Option JsVal),
      (∀ p : ArtifactsPanel, ArtifactsPanel.loadArtifacts L p (FetchResult.response status1 body) =
        ArtifactsPanel.loadArtifacts L p (FetchResult.response status2 body)) ∧
      (∀ t : TaskProgress, TaskProgress.pollTick L t (FetchResult.response status1 body) =
        TaskProgress.pollTick L t (FetchResult.response status2 body)) ∧
      (∀ s : State, App.loadConfig L s (FetchResult.response status1 body) =
        App.loadConfig L s (FetchResult.response status2 body))) ∧
    (∀ (status : Nat) (fields : List (String × JsVal)),
      (fields.find? (fun kv => kv.1 == "artifacts") = none →
        ∀ p : ArtifactsPanel,
          ArtifactsPanel.loadArtifacts L p (FetchResult.response status (some (JsVal.obj fields))) =
            { p with artifacts := JsVal.arr []
                     listHTML := p.listHTML.map
                       (fun _ => "<p class=\"no-artifacts\">Nenhum artifact ainda</p>") }) ∧
      (fields.find? (fun kv => kv.1 == "name") = none →
        ∀ t : TaskProgress,
          TaskProgress.pollTick L t (FetchResult.response status (some (JsVal.obj fields))) =
            TaskProgress.hideTask t) ∧
      (fields.find? (fun kv => kv.1 == "llm") = none →
        ∀ s : State,
          App.loadConfig L s (FetchResult.response status (some (JsVal.obj fields))) = s)) := by
  refine ⟨?_, ?_, ?_, ⟨rfl, fun _ => rfl⟩, fun _ _ _ => ⟨fun _ => rfl, fun _ => rfl, fun _ => rfl⟩,
    ?_⟩
  · intro p r h
    simp [ArtifactsPanel.loadArtifacts, h]
  · intro t r h
    simp [TaskProgress.pollTick, h]
  · intro s r h
    simp [App.loadConfig, h]
  · intro status fields
    refine ⟨?_, ?_, ?_⟩
    · intro h p
      cases hp : p.listHTML with
      | none =>
        simp [ArtifactsPanel.loadArtifacts, FetchResult.json, JsVal.getProp, h, JsVal.truthy,
          ArtifactsPanel.render, hp]
      | some html =>
        simp [ArtifactsPanel.loadArtifacts, FetchResult.json, JsVal.getProp, h, JsVal.truthy,
          ArtifactsPanel.render, hp, JsVal.isZero]
    · intro h t
      simp [TaskProgress.pollTick, FetchResult.json, JsVal.getProp, h, JsVal.truthy]
    · intro h s
      simp [App.loadConfig, FetchResult.json, JsVal.getProp, h]

theorem failed_request_keeps_state_witness :
    ArtifactsPanel.loadArtifacts sampleLibs sampleArtifactsPanel FetchResult.rejected =
      sampleArtifactsPanel ∧
    TaskProgress.pollTick sampleLibs sampleTaskProgress (FetchResult.response 502 none) =
      sampleTaskProgress ∧
    App.loadConfig sampleLibs sampleTyped FetchResult.rejected = sampleTyped ∧
    App.loadConfig sampleLibs sampleTyped sampleErrorResponse = sampleTyped ∧
    TaskProgress.pollTick sampleLibs sampleTaskProgress sampleErrorResponse =
      TaskProgress.hideTask sampleTaskProgress ∧
    ArtifactsPanel.loadArtifacts sampleLibs sampleArtifactsPanel sampleErrorResponse =
      { sampleArtifactsPanel with
        artifacts := JsVal.arr []
        listHTML := sampleArtifactsPanel.listHTML.map
          (fun _ => "<p class=\"no-artifacts\">Nenhum artifact ainda</p>") } :=
  ⟨(failed_request_keeps_state sampleLibs).1 sampleArtifactsPanel FetchResult.rejected rfl,
   (failed_request_keeps_state sampleLibs).2.1 sampleTaskProgress (FetchResult.response 502 none) rfl,
   (failed_request_keeps_state sampleLibs).2.2.1 sampleTyped FetchResult.rejected rfl,
   ((failed_request_keeps_state sampleLibs).2.2.2.2.2 500
      [("detail", JsVal.str "Internal Server Error")]).2.2 rfl sampleTyped,
   ((failed_request_keeps_state sampleLibs).2.2.2.2.2 500
      [("detail", JsVal.str "Internal Server Error")]).2.1 rfl sampleTaskProgress,
   ((failed_request_keeps_state sampleLibs).2.2.2.2.2 500
      [("detail", JsVal.str "Internal Server Error")]).1 rfl sampleArtifactsPanel⟩

/-- C10 fails as stated: on a response with status 500 whose body is a JSON
error object, `loadArtifacts` replaces the one artifact shown by the empty
array and the list by the empty-state message, and the poll tick hides the
task panel that was visible. -/
theorem error_response_replaces_state :
    sampleArtifactsPanel.artifacts.ownKeyCount = 1 ∧
    sampleArtifactsPanel.listHTML = some "<div class=\"artifact-item\">plan.md</div>" ∧
    (ArtifactsPanel.loadArtifacts sampleLibs sampleArtifactsPanel sampleErrorResponse).artifacts.ownKeyCount
      = 0 ∧
    (ArtifactsPanel.loadArtifacts sampleLibs sampleArtifactsPanel sampleErrorResponse).listHTML =
      some "<p class=\"no-artifacts\">Nenhum artifact ainda</p>" ∧
    sampleTaskProgress.container.map (fun c => c.hidden) = some false ∧
    (TaskProgress.pollTick sampleLibs sampleTaskProgress sampleErrorResponse).container.map
      (fun c => c.hidden) = some true := by
  decide

namespace App

theorem rendererCode_mermaid (L : Libs) (code : String) :
    rendererCode L code (JsVal.str "mermaid") = "<div class=\"mermaid\">" ++ code ++ "</div>" := by
  simp [rendererCode]

theorem rendererCode_other (L : Libs) (code : String) (language : JsVal)
    (h : language ≠ JsVal.str "mermaid") :
    rendererCode L code language =
      "<pre><code class=\"language-" ++ jsToString L language ++ "\">" ++ code ++
        "</code></pre>" := by
  unfold rendererCode
  split
  · exact absurd rfl h
  · rfl

theorem beginsWith_append (opening rest : String) : beginsWith (opening ++ rest) opening = true := by
  simp [beginsWith, isPrefixOf_iff_append]

theorem beginsWith_append_false (a rest opening : String) (hlen : opening.length ≤ a.length)
    (h : beginsWith a opening = false) : beginsWith (a ++ rest) opening = false := by
  apply Bool.eq_false_iff.mpr
  intro hc
  unfold beginsWith at hc h
  rw [isPrefixOf_iff_append] at hc
  obtain ⟨b, hb⟩ := hc
  have hlen2 : opening.data.length ≤ a.data.length := hlen
  have htake := congrArg (List.take opening.data.length) hb
  rw [String.data_append, List.take_append_of_le_length hlen2, List.take_left] at htake
  have hpre : opening.data.isPrefixOf a.data = true := by
    rw [isPrefixOf_iff_append]
    exact ⟨a.data.drop opening.data.length, by
      conv_lhs => rw [← List.take_append_drop opening.data.length a.data]
      rw [htake]⟩
  rw [hpre] at h
  exact Bool.noConfusion h

/-- C11: for every code text, a fence tagged `mermaid` renders as the diagram
container `<div class="mermaid">` + code + `</div>`, which is not a
`<pre><code ...>` block; a fence with any other language tag renders as
`<pre><code class="language-L">` + code + `</code></pre>`, which is not a
mermaid container.  A fence whose language is not the string `mermaid` at all
(no tag) is rendered as the code block too, with the language converted to
text. -/
theorem code_fence_rendering (L : Libs) (c : String) :
    (rendererCode L c (JsVal.str "mermaid") = "<div class=\"mermaid\">" ++ c ++ "</div>" ∧
      beginsWith (rendererCode L c (JsVal.str "mermaid")) "<pre><code" = false) ∧
    (∀ lang : String, lang ≠ "mermaid" →
      rendererCode L c (JsVal.str lang) =
        "<pre><code class=\"language-" ++ lang ++ "\">" ++ c ++ "</code></pre>" ∧
      beginsWith (rendererCode L c (JsVal.str lang)) "<pre><code class=\"language-" = true ∧
      beginsWith (rendererCode L c (JsVal.str lang)) "<div class=\"mermaid\">" = false ∧
      rendererCode L c (JsVal.str lang) ≠ "<div class=\"mermaid\">" ++ c ++ "</div>") ∧
    (∀ language : JsVal, language ≠ JsVal.str "mermaid" →
      rendererCode L c language =
        "<pre><code class=\"language-" ++ jsToString L language ++ "\">" ++ c ++ "</code></pre>") := by
  refine ⟨⟨rendererCode_mermaid L c, ?_⟩, ?_, fun language h => rendererCode_other L c language h⟩
  · rw [rendererCode_mermaid, String.append_assoc]
    exact beginsWith_append_false _ _ _ (by decide) (by decide)
  · intro lang hlang
    have hne : JsVal.str lang ≠ JsVal.str "mermaid" := fun e => hlang (JsVal.str.inj e)
    have hother := rendererCode_other L c (JsVal.str lang) hne
    have hstr : jsToString L (JsVal.str lang) = lang := rfl
    rw [hstr] at hother
    have hshape : rendererCode L c (JsVal.str lang) =
        "<pre><code class=\"language-" ++ (lang ++ "\">" ++ c ++ "</code></pre>") := by
      rw [hother]
      simp only [String.append_assoc]
    have hnot : beginsWith (rendererCode L c (JsVal.str lang)) "<div class=\"mermaid\">" = false := by
      rw [hshape]
      exact beginsWith_append_false _ _ _ (by decide) (by decide)
    refine ⟨hother, ?_, hnot, ?_⟩
    · rw [hshape]
      exact beginsWith_append _ _
    · intro heq
      rw [heq, String.append_assoc, beginsWith_append] at hnot
      exact Bool.noConfusion hnot

theorem code_fence_rendering_witness :
    rendererCode sampleLibs "print(1)" (JsVal.str "python") =
      "<pre><code class=\"language-" ++ "python" ++ "\">" ++ "print(1)" ++ "</code></pre>" ∧
    beginsWith (rendererCode sampleLibs "print(1)" (JsVal.str "python")) "<div class=\"mermaid\">"
      = false ∧
    rendererCode sampleLibs "graph TD; A-->B" (JsVal.str "Mermaid") =
      "<pre><code class=\"language-" ++ jsToString sampleLibs (JsVal.str "Mermaid") ++ "\">" ++
        "graph TD; A-->B" ++ "</code></pre>" :=
  ⟨((code_fence_rendering sampleLibs "print(1)").2.1 "python" (by decide)).1,
   ((code_fence_rendering sampleLibs "print(1)").2.1 "python" (by decide)).2.2.1,
   (code_fence_rendering sampleLibs "graph TD; A-->B").2.2 (JsVal.str "Mermaid")
     (fun e => absurd (JsVal.str.inj e) (by decide))⟩

end App
